import Mathlib

/-!
# The pdata metrics model of the OpenTelemetry collector

A shallow embedding of `model/internal/pdata/metrics.go`, followed by those of
`processor/processorhelper/traces.go`, `exporter/exporterhelper/internal/obs_queue.go` and
`config/configtls/clientcasfilereloader.go`.  For the metrics model:

* The wire structs of package `otlpmetrics` (generated protobuf code) are Lean structures.
  An ordered sequence of entities (a Go slice of element pointers) is a `List` of elements, as
  in §2 and §3 of the specification: below the root a tree is a value.
* A `Metrics` handle is a pointer to a `MetricsData` cell of an explicit heap.  Go has no
  `free`, so the heap only grows.  Two handles share storage exactly when they point to the
  same cell.
* A view obtained by navigation is read as the value it denotes; a mutation through a view is
  a write to the cell of the root.
* A function that can panic returns `Option`; `none` is the panic.
* Go `int` counters are `Nat`: a count is bounded by the number of allocated elements,
  far below `2^63`, so no wrap-around is reachable.
* A `float64` is kept as its 64-bit pattern (`Nat`); no arithmetic is done on it.
-/

namespace otlpcommon

/-- Modelled from the spec: the typed attribute value of package `otlpcommon` (generated code),
restricted to its scalar alternatives. -/
inductive AnyValue where
  | unset
  | StringValue (v : String)
  | BoolValue (v : Bool)
  | IntValue (v : Int)
  | DoubleValue (bits : Nat)
  deriving DecidableEq, Repr

/-- Modelled from the spec: one attribute of package `otlpcommon` (generated code). -/
structure KeyValue where
  Key : String := ""
  Value : AnyValue := AnyValue.unset
  deriving DecidableEq, Repr

/-- Modelled from the spec: the instrumentation-scope descriptor of package `otlpcommon`. -/
structure InstrumentationScope where
  Name : String := ""
  Version : String := ""
  Attributes : List KeyValue := []
  deriving DecidableEq, Repr

end otlpcommon

namespace otlpresource

/-- Modelled from the spec: the resource descriptor of package `otlpresource`. -/
structure Resource where
  Attributes : List otlpcommon.KeyValue := []
  deriving DecidableEq, Repr

end otlpresource

namespace otlpmetrics

/-- Modelled from the spec: the oneof value of a number data point (generated code). -/
inductive NumberDataPoint_Value where
  | unset
  | AsDouble (bits : Nat)
  | AsInt (v : Int)
  deriving DecidableEq, Repr

/-- Modelled from the spec: `otlpmetrics.NumberDataPoint` (generated code). -/
structure NumberDataPoint where
  Attributes : List otlpcommon.KeyValue := []
  StartTimeUnixNano : Nat := 0
  TimeUnixNano : Nat := 0
  Value : NumberDataPoint_Value := NumberDataPoint_Value.unset
  Flags : Nat := 0
  deriving DecidableEq, Repr

/-- Modelled from the spec: `otlpmetrics.HistogramDataPoint` (generated code); `Sum_` is the
optional sum, `none` when unset. -/
structure HistogramDataPoint where
  Attributes : List otlpcommon.KeyValue := []
  StartTimeUnixNano : Nat := 0
  TimeUnixNano : Nat := 0
  Count : Nat := 0
  Sum_ : Option Nat := none
  BucketCounts : List Nat := []
  ExplicitBounds : List Nat := []
  Flags : Nat := 0
  deriving DecidableEq, Repr

/-- Modelled from the spec: `otlpmetrics.ExponentialHistogramDataPoint` (generated code). -/
structure ExponentialHistogramDataPoint where
  Attributes : List otlpcommon.KeyValue := []
  StartTimeUnixNano : Nat := 0
  TimeUnixNano : Nat := 0
  Count : Nat := 0
  Sum : Nat := 0
  Scale : Int := 0
  ZeroCount : Nat := 0
  PositiveOffset : Int := 0
  PositiveBucketCounts : List Nat := []
  NegativeOffset : Int := 0
  NegativeBucketCounts : List Nat := []
  Flags : Nat := 0
  deriving DecidableEq, Repr

/-- Modelled from the spec: `otlpmetrics.SummaryDataPoint` (generated code); a quantile value is
a pair of 64-bit patterns (quantile, value). -/
structure SummaryDataPoint where
  Attributes : List otlpcommon.KeyValue := []
  StartTimeUnixNano : Nat := 0
  TimeUnixNano : Nat := 0
  Count : Nat := 0
  Sum : Nat := 0
  QuantileValues : List (Nat × Nat) := []
  Flags : Nat := 0
  deriving DecidableEq, Repr

/-- Modelled from the spec: `otlpmetrics.Gauge` (generated code). -/
structure Gauge where
  DataPoints : List NumberDataPoint := []
  deriving DecidableEq, Repr

/-- Modelled from the spec: `otlpmetrics.Sum` (generated code). -/
structure Sum where
  DataPoints : List NumberDataPoint := []
  AggregationTemporality : Int := 0
  IsMonotonic : Bool := false
  deriving DecidableEq, Repr

/-- Modelled from the spec: `otlpmetrics.Histogram` (generated code). -/
structure Histogram where
  DataPoints : List HistogramDataPoint := []
  AggregationTemporality : Int := 0
  deriving DecidableEq, Repr

/-- Modelled from the spec: `otlpmetrics.ExponentialHistogram` (generated code). -/
structure ExponentialHistogram where
  DataPoints : List ExponentialHistogramDataPoint := []
  AggregationTemporality : Int := 0
  deriving DecidableEq, Repr

/-- Modelled from the spec: `otlpmetrics.Summary` (generated code). -/
structure Summary where
  DataPoints : List SummaryDataPoint := []
  deriving DecidableEq, Repr

/-- Modelled from the spec: the oneof field `Metric.Data` (generated code).  `unset` is the nil
interface value; each wrapper holds a pointer to its payload, `none` when that pointer is nil. -/
inductive isMetric_Data where
  | unset
  | Metric_Gauge (Gauge : Option Gauge)
  | Metric_Sum (Sum : Option Sum)
  | Metric_Histogram (Histogram : Option Histogram)
  | Metric_ExponentialHistogram (ExponentialHistogram : Option ExponentialHistogram)
  | Metric_Summary (Summary : Option Summary)
  deriving DecidableEq, Repr

/-- Modelled from the spec: `otlpmetrics.Metric` (generated code). -/
structure Metric where
  Name : String := ""
  Description : String := ""
  Unit : String := ""
  Data : isMetric_Data := isMetric_Data.unset
  deriving DecidableEq, Repr

/-- Modelled from the spec: `otlpmetrics.ScopeMetrics` (generated code). -/
structure ScopeMetrics where
  Scope : otlpcommon.InstrumentationScope := {}
  Metrics : List Metric := []
  SchemaUrl : String := ""
  deriving DecidableEq, Repr

/-- Modelled from the spec: `otlpmetrics.ResourceMetrics` (generated code). -/
structure ResourceMetrics where
  Resource : otlpresource.Resource := {}
  ScopeMetrics : List ScopeMetrics := []
  SchemaUrl : String := ""
  deriving DecidableEq, Repr

/-- Modelled from the spec: `otlpmetrics.MetricsData` (generated code), the root of the tree. -/
structure MetricsData where
  ResourceMetrics : List ResourceMetrics := []
  deriving DecidableEq, Repr

/-- Modelled from the spec: the enumerator `DataPointFlags_FLAG_NONE` of the wire schema
(generated code), the sentinel for "no flags set". -/
def DataPointFlags_FLAG_NONE : Nat := 0

/-- Modelled from the spec: the enumerator `DataPointFlags_FLAG_NO_RECORDED_VALUE` of the wire
schema (generated code), the one named bit. -/
def DataPointFlags_FLAG_NO_RECORDED_VALUE : Nat := 1

/-- Modelled from the spec: `DataPointFlags.String` (generated code, §4.4): the canonical
wire-format enumerator name.  The specification does not fix the rendering of a value without
an enumerator; its decimal digits are used. -/
def DataPointFlags.String (x : Nat) : String :=
  if x = DataPointFlags_FLAG_NONE then "FLAG_NONE"
  else if x = DataPointFlags_FLAG_NO_RECORDED_VALUE then "FLAG_NO_RECORDED_VALUE"
  else toString x

end otlpmetrics

namespace pdata

/-- The heap of `MetricsData` cells; the address of a cell is its position. -/
structure Heap where
  cells : List otlpmetrics.MetricsData := []
  deriving DecidableEq, Repr

/-- Read through a pointer: `*p`.  A nil or dangling pointer panics. -/
def Heap.load (h : Heap) (p : Option Nat) : Option otlpmetrics.MetricsData :=
  match p with
  | none => none
  | some a => h.cells[a]?

/-- Write through a pointer: `*p = v`.  A nil or dangling pointer panics. -/
def Heap.store (h : Heap) (p : Option Nat) (v : otlpmetrics.MetricsData) : Option Heap :=
  match p with
  | none => none
  | some a => if a < h.cells.length then some { cells := h.cells.set a v } else none

/-- Allocate a new cell: `&otlpmetrics.MetricsData{...}`. -/
def Heap.alloc (h : Heap) (v : otlpmetrics.MetricsData) : Heap × Nat :=
  ({ cells := h.cells ++ [v] }, h.cells.length)

/-- `type Metrics struct { orig *otlpmetrics.MetricsData }`; `none` is the nil pointer of the
zero-initialized instance. -/
structure Metrics where
  orig : Option Nat := none
  deriving DecidableEq, Repr

/-- `type MetricDataType int32`. -/
abbrev MetricDataType := Int

def MetricDataTypeNone : MetricDataType := 0
def MetricDataTypeGauge : MetricDataType := 1
def MetricDataTypeSum : MetricDataType := 2
def MetricDataTypeHistogram : MetricDataType := 3
def MetricDataTypeExponentialHistogram : MetricDataType := 4
def MetricDataTypeSummary : MetricDataType := 5

/-- Go `for i := i0; i < n; i++ { s = body i s }` where `n` does not change in the loop and the
body may panic.  `fuel` bounds the number of iterations; running out of it while `i < n` still
holds is `none`. -/
def forLoop {σ : Type} (n : Nat) (body : Nat → σ → Option σ) : Nat → Nat → σ → Option σ
  | 0, i, s => if i < n then none else some s
  | fuel + 1, i, s =>
    if i < n then
      match body i s with
      | none => none
      | some s1 => forLoop n body fuel (i + 1) s1
    else some s

/-- Modelled from the spec: `Len()` of an ordered-sequence view (generated code, §4.1). -/
def Slice.Len {α : Type} (es : List α) : Nat := es.length

/-- Modelled from the spec: `At(i)` of an ordered-sequence view (generated code, §4.1); it fails
for `i` outside `[0, Len())`. -/
def Slice.At {α : Type} (es : List α) (i : Nat) : Option α := es[i]?

/-- `NewMetrics`: `Metrics{orig: &otlpmetrics.MetricsData{}}`. -/
def NewMetrics (h : Heap) : Heap × Metrics :=
  let r := h.alloc {}
  (r.1, { orig := some r.2 })

/-- `Metrics.ResourceMetrics`: the view `&md.orig.ResourceMetrics`, read as the sequence it
denotes in heap `h`. -/
def Metrics.ResourceMetrics (h : Heap) (md : Metrics) : Option (List otlpmetrics.ResourceMetrics) :=
  match h.load md.orig with
  | none => none
  | some d => some d.ResourceMetrics

/-- The inner loop of `MetricCount` (lines 79-82). -/
def Metrics.MetricCount.scopes (ilms : List otlpmetrics.ScopeMetrics) (metricCount : Nat) : Option Nat :=
  forLoop (Slice.Len ilms)
    (fun j metricCount =>
      match Slice.At ilms j with
      | none => none
      | some ilm => some (metricCount + Slice.Len ilm.Metrics))
    (Slice.Len ilms) 0 metricCount

/-- `Metrics.MetricCount` (lines 73-85). -/
def Metrics.MetricCount (h : Heap) (md : Metrics) : Option Nat :=
  match md.ResourceMetrics h with
  | none => none
  | some rms =>
    forLoop (Slice.Len rms)
      (fun i metricCount =>
        match Slice.At rms i with
        | none => none
        | some rm => Metrics.MetricCount.scopes rm.ScopeMetrics metricCount)
      (Slice.Len rms) 0 0

/-- Modelled from the spec: `Metric.DataType` (generated code, §4.2) returns the current tag,
the variant of the oneof value held in `Data`. -/
def Metric.DataType (ms : otlpmetrics.Metric) : MetricDataType :=
  match ms.Data with
  | otlpmetrics.isMetric_Data.unset => MetricDataTypeNone
  | otlpmetrics.isMetric_Data.Metric_Gauge _ => MetricDataTypeGauge
  | otlpmetrics.isMetric_Data.Metric_Sum _ => MetricDataTypeSum
  | otlpmetrics.isMetric_Data.Metric_Histogram _ => MetricDataTypeHistogram
  | otlpmetrics.isMetric_Data.Metric_ExponentialHistogram _ => MetricDataTypeExponentialHistogram
  | otlpmetrics.isMetric_Data.Metric_Summary _ => MetricDataTypeSummary

/-- Modelled from the spec: the payload view `Gauge` (generated code): a pointer to the wire payload, `none` when nil. -/
structure Gauge where
  orig : Option otlpmetrics.Gauge
  deriving DecidableEq, Repr

/-- Modelled from the spec: the payload view `Sum` (generated code). -/
structure Sum where
  orig : Option otlpmetrics.Sum
  deriving DecidableEq, Repr

/-- Modelled from the spec: the payload view `Histogram` (generated code). -/
structure Histogram where
  orig : Option otlpmetrics.Histogram
  deriving DecidableEq, Repr

/-- Modelled from the spec: the payload view `ExponentialHistogram` (generated code). -/
structure ExponentialHistogram where
  orig : Option otlpmetrics.ExponentialHistogram
  deriving DecidableEq, Repr

/-- Modelled from the spec: the payload view `Summary` (generated code). -/
structure Summary where
  orig : Option otlpmetrics.Summary
  deriving DecidableEq, Repr

/-- Modelled from the spec: the accessor `Metric.Gauge` (generated code, §4.2): invoking it when
the current tag is another variant, or None, fails fast; otherwise it returns the view of the
payload. -/
def Metric.Gauge (ms : otlpmetrics.Metric) : Option Gauge :=
  match ms.Data with
  | otlpmetrics.isMetric_Data.Metric_Gauge p => some { orig := p }
  | _ => none

/-- Modelled from the spec: the accessor `Metric.Sum` (generated code, §4.2). -/
def Metric.Sum (ms : otlpmetrics.Metric) : Option Sum :=
  match ms.Data with
  | otlpmetrics.isMetric_Data.Metric_Sum p => some { orig := p }
  | _ => none

/-- Modelled from the spec: the accessor `Metric.Histogram` (generated code, §4.2). -/
def Metric.Histogram (ms : otlpmetrics.Metric) : Option Histogram :=
  match ms.Data with
  | otlpmetrics.isMetric_Data.Metric_Histogram p => some { orig := p }
  | _ => none

/-- Modelled from the spec: the accessor `Metric.ExponentialHistogram` (generated code, §4.2). -/
def Metric.ExponentialHistogram (ms : otlpmetrics.Metric) : Option ExponentialHistogram :=
  match ms.Data with
  | otlpmetrics.isMetric_Data.Metric_ExponentialHistogram p => some { orig := p }
  | _ => none

/-- Modelled from the spec: the accessor `Metric.Summary` (generated code, §4.2). -/
def Metric.Summary (ms : otlpmetrics.Metric) : Option Summary :=
  match ms.Data with
  | otlpmetrics.isMetric_Data.Metric_Summary p => some { orig := p }
  | _ => none

/-- Modelled from the spec: `Gauge.DataPoints` (generated code); by §4.3 an absent payload has
no data points. -/
def Gauge.DataPoints (ms : Gauge) : List otlpmetrics.NumberDataPoint :=
  match ms.orig with
  | none => []
  | some p => p.DataPoints

/-- Modelled from the spec: `Sum.DataPoints` (generated code, §4.3). -/
def Sum.DataPoints (ms : Sum) : List otlpmetrics.NumberDataPoint :=
  match ms.orig with
  | none => []
  | some p => p.DataPoints

/-- Modelled from the spec: `Histogram.DataPoints` (generated code, §4.3). -/
def Histogram.DataPoints (ms : Histogram) : List otlpmetrics.HistogramDataPoint :=
  match ms.orig with
  | none => []
  | some p => p.DataPoints

/-- Modelled from the spec: `ExponentialHistogram.DataPoints` (generated code, §4.3). -/
def ExponentialHistogram.DataPoints (ms : ExponentialHistogram) :
    List otlpmetrics.ExponentialHistogramDataPoint :=
  match ms.orig with
  | none => []
  | some p => p.DataPoints

/-- Modelled from the spec: `Summary.DataPoints` (generated code, §4.3). -/
def Summary.DataPoints (ms : Summary) : List otlpmetrics.SummaryDataPoint :=
  match ms.orig with
  | none => []
  | some p => p.DataPoints

/-- The `switch m.DataType()` of `DataPointCount` (lines 98-109): one metric's step. -/
def Metrics.DataPointCount.metric (m : otlpmetrics.Metric) (dataPointCount : Nat) : Option Nat :=
  if Metric.DataType m = MetricDataTypeGauge then
    match Metric.Gauge m with
    | none => none
    | some v => some (dataPointCount + Slice.Len v.DataPoints)
  else if Metric.DataType m = MetricDataTypeSum then
    match Metric.Sum m with
    | none => none
    | some v => some (dataPointCount + Slice.Len v.DataPoints)
  else if Metric.DataType m = MetricDataTypeHistogram then
    match Metric.Histogram m with
    | none => none
    | some v => some (dataPointCount + Slice.Len v.DataPoints)
  else if Metric.DataType m = MetricDataTypeExponentialHistogram then
    match Metric.ExponentialHistogram m with
    | none => none
    | some v => some (dataPointCount + Slice.Len v.DataPoints)
  else if Metric.DataType m = MetricDataTypeSummary then
    match Metric.Summary m with
    | none => none
    | some v => some (dataPointCount + Slice.Len v.DataPoints)
  else some dataPointCount

/-- The loop over the metrics of one scope in `DataPointCount` (lines 96-110). -/
def Metrics.DataPointCount.metrics (ms : List otlpmetrics.Metric) (dataPointCount : Nat) :
    Option Nat :=
  forLoop (Slice.Len ms)
    (fun k dataPointCount =>
      match Slice.At ms k with
      | none => none
      | some m => Metrics.DataPointCount.metric m dataPointCount)
    (Slice.Len ms) 0 dataPointCount

/-- The loop over the scopes of one resource in `DataPointCount` (lines 93-111). -/
def Metrics.DataPointCount.scopes (ilms : List otlpmetrics.ScopeMetrics) (dataPointCount : Nat) :
    Option Nat :=
  forLoop (Slice.Len ilms)
    (fun j dataPointCount =>
      match Slice.At ilms j with
      | none => none
      | some ilm => Metrics.DataPointCount.metrics ilm.Metrics dataPointCount)
    (Slice.Len ilms) 0 dataPointCount

/-- `Metrics.DataPointCount` (lines 88-114). -/
def Metrics.DataPointCount (h : Heap) (md : Metrics) : Option Nat :=
  match md.ResourceMetrics h with
  | none => none
  | some rms =>
    forLoop (Slice.Len rms)
      (fun i dataPointCount =>
        match Slice.At rms i with
        | none => none
        | some rm => Metrics.DataPointCount.scopes rm.ScopeMetrics dataPointCount)
      (Slice.Len rms) 0 0

/-- `Metric.SetDataType` (lines 149-162), as the new state of the `otlpmetrics.Metric` that
`ms.orig` points to.  The switch has no default: any other `ty` leaves the metric as it is. -/
def Metric.SetDataType (ms : otlpmetrics.Metric) (ty : MetricDataType) : otlpmetrics.Metric :=
  if ty = MetricDataTypeGauge then
    { ms with Data := otlpmetrics.isMetric_Data.Metric_Gauge (some {}) }
  else if ty = MetricDataTypeSum then
    { ms with Data := otlpmetrics.isMetric_Data.Metric_Sum (some {}) }
  else if ty = MetricDataTypeHistogram then
    { ms with Data := otlpmetrics.isMetric_Data.Metric_Histogram (some {}) }
  else if ty = MetricDataTypeExponentialHistogram then
    { ms with Data := otlpmetrics.isMetric_Data.Metric_ExponentialHistogram (some {}) }
  else if ty = MetricDataTypeSummary then
    { ms with Data := otlpmetrics.isMetric_Data.Metric_Summary (some {}) }
  else ms

/-- `Metrics.MoveTo` (lines 62-65): `*dest.orig = *md.orig` and then
`*md.orig = otlpmetrics.MetricsData{}`. -/
def Metrics.MoveTo (h : Heap) (md dest : Metrics) : Option Heap :=
  match h.load md.orig with
  | none => none
  | some v =>
    match h.store dest.orig v with
    | none => none
    | some h1 => h1.store md.orig {}

/-- Modelled from the spec: `ResourceMetricsSlice.CopyTo` (generated code, §4.1): it deep-copies
the entire subtree into `dest`, discarding the prior content of `dest`.  `es` is the sequence
the source view denotes; `dest` is the cell whose `ResourceMetrics` field the destination view
points to. -/
def ResourceMetricsSlice.CopyTo (h : Heap) (es : List otlpmetrics.ResourceMetrics)
    (dest : Option Nat) : Option Heap :=
  match h.load dest with
  | none => none
  | some d => h.store dest { d with ResourceMetrics := es }

/-- `Metrics.Clone` (lines 54-58): a new `Metrics`, filled by `CopyTo` from the source. -/
def Metrics.Clone (h : Heap) (md : Metrics) : Option (Heap × Metrics) :=
  let r := NewMetrics h
  let cloneMd := r.2
  match md.ResourceMetrics r.1 with
  | none => none
  | some es =>
    match ResourceMetricsSlice.CopyTo r.1 es cloneMd.orig with
    | none => none
    | some h2 => some (h2, cloneMd)

/-- A mutation through the view `es.At(i)`: the element at `i` is replaced by its new state;
`At` fails outside `[0, Len())`, and so does a failing mutation. -/
def Slice.update {α : Type} (es : List α) (i : Nat) (f : α → Option α) : Option (List α) :=
  match Slice.At es i with
  | none => none
  | some e =>
    match f e with
    | none => none
    | some e1 => some (es.set i e1)

/-- The call chain
`md.ResourceMetrics().At(i).ScopeMetrics().At(j).Metrics().At(k).SetDataType(ty)`:
the views write through to the cell of `md`. -/
def Metrics.SetDataTypeAt (h : Heap) (md : Metrics) (i j k : Nat) (ty : MetricDataType) :
    Option Heap :=
  match h.load md.orig with
  | none => none
  | some d =>
    match Slice.update d.ResourceMetrics i (fun rm =>
        (Slice.update rm.ScopeMetrics j (fun ilm =>
          (Slice.update ilm.Metrics k (fun m => some (Metric.SetDataType m ty))).map
            (fun ms => { ilm with Metrics := ms }))).map
          (fun ilms => { rm with ScopeMetrics := ilms })) with
    | none => none
    | some rms => h.store md.orig { d with ResourceMetrics := rms }

/-- The number of data points the payload of a metric holds, as the specification words it: the length
of the data-point sequence of the variant its tag selects, 0 for None. -/
def dataPointsOf (m : otlpmetrics.Metric) : Nat :=
  match m.Data with
  | otlpmetrics.isMetric_Data.unset => 0
  | otlpmetrics.isMetric_Data.Metric_Gauge p => (Gauge.DataPoints { orig := p }).length
  | otlpmetrics.isMetric_Data.Metric_Sum p => (Sum.DataPoints { orig := p }).length
  | otlpmetrics.isMetric_Data.Metric_Histogram p => (Histogram.DataPoints { orig := p }).length
  | otlpmetrics.isMetric_Data.Metric_ExponentialHistogram p =>
    (ExponentialHistogram.DataPoints { orig := p }).length
  | otlpmetrics.isMetric_Data.Metric_Summary p => (Summary.DataPoints { orig := p }).length

/-- The number of metrics under one resource: the sum of its scopes' metric-sequence lengths. -/
def metricsUnder (rm : otlpmetrics.ResourceMetrics) : Nat :=
  (rm.ScopeMetrics.map (fun ilm => ilm.Metrics.length)).sum

/-- The number of data points under one scope. -/
def pointsInScope (ilm : otlpmetrics.ScopeMetrics) : Nat :=
  (ilm.Metrics.map dataPointsOf).sum

/-- The number of data points under one resource. -/
def pointsUnder (rm : otlpmetrics.ResourceMetrics) : Nat :=
  (rm.ScopeMetrics.map pointsInScope).sum

/-- A metric that `DataPointCount` ignores, as the specification words it: its `DataType()` is None or
its payload has no data points. -/
def ignorable (m : otlpmetrics.Metric) : Bool :=
  decide (Metric.DataType m = MetricDataTypeNone) || decide (dataPointsOf m = 0)

/-- Remove the ignorable metrics of one scope. -/
def stripScope (ilm : otlpmetrics.ScopeMetrics) : otlpmetrics.ScopeMetrics :=
  { ilm with Metrics := ilm.Metrics.filter (fun m => !ignorable m) }

/-- Remove the ignorable metrics of every scope of one resource. -/
def stripResource (rm : otlpmetrics.ResourceMetrics) : otlpmetrics.ResourceMetrics :=
  { rm with ScopeMetrics := rm.ScopeMetrics.map stripScope }

/-- Remove every ignorable metric of a tree; resources and scopes stay. -/
def stripIgnorable (d : otlpmetrics.MetricsData) : otlpmetrics.MetricsData :=
  { d with ResourceMetrics := d.ResourceMetrics.map stripResource }

/-! ## Trees of the test suite -/

/-- `generateMetricsEmptyResource` of the tests: one resource without scopes. -/
def generateMetricsEmptyResource : otlpmetrics.MetricsData :=
  { ResourceMetrics := [{}] }

/-- `generateMetricsEmptyInstrumentation` of the tests: one scope without metrics. -/
def generateMetricsEmptyInstrumentation : otlpmetrics.MetricsData :=
  { ResourceMetrics := [{ ScopeMetrics := [{}] }] }

/-- `generateMetricsEmptyMetrics` of the tests: one metric with `Data` unset. -/
def generateMetricsEmptyMetrics : otlpmetrics.MetricsData :=
  { ResourceMetrics := [{ ScopeMetrics := [{ Metrics := [{}] }] }] }

/-- `generateMetricsEmptyDataPoints` of the tests: one gauge with one empty data point. -/
def generateMetricsEmptyDataPoints : otlpmetrics.MetricsData :=
  { ResourceMetrics := [{ ScopeMetrics := [{ Metrics := [
      { Data := otlpmetrics.isMetric_Data.Metric_Gauge (some { DataPoints := [{}] }) }] }] }] }

/-- `generateTestProtoGaugeMetric` of the tests: a gauge with two number data points (the
double values 123.1 and 456.1 as bit patterns). -/
def generateTestProtoGaugeMetric : otlpmetrics.Metric :=
  { Name := "my_metric_int", Description := "My metric", Unit := "ms",
    Data := otlpmetrics.isMetric_Data.Metric_Gauge (some { DataPoints := [
      { Attributes := [{ Key := "key0", Value := otlpcommon.AnyValue.StringValue "value0" }],
        StartTimeUnixNano := 12578940000000012345, TimeUnixNano := 12578940000000054321,
        Value := otlpmetrics.NumberDataPoint_Value.AsDouble 4638362809345140326 },
      { Attributes := [{ Key := "key1", Value := otlpcommon.AnyValue.StringValue "value1" }],
        StartTimeUnixNano := 12578940000000012345, TimeUnixNano := 12578940000000054321,
        Value := otlpmetrics.NumberDataPoint_Value.AsDouble 4646731412246469018 }] }) }

/-- Scenario B of the spec: one resource, one scope, one gauge metric with two data points. -/
def scenarioB : otlpmetrics.MetricsData :=
  { ResourceMetrics := [{ ScopeMetrics := [{ Metrics := [generateTestProtoGaugeMetric] }] }] }

/-- The final tree of `TestMetricCount`: three resources of one scope each, holding 1, 0 and 5
empty metrics. -/
def testMetricCountTree : otlpmetrics.MetricsData :=
  { ResourceMetrics := [
      { ScopeMetrics := [{ Metrics := [{}] }] },
      { ScopeMetrics := [{}] },
      { ScopeMetrics := [{ Metrics := [{}, {}, {}, {}, {}] }] }] }

/-- The final tree of `TestMetricAndDataPointCount`: the five metrics of the third resource
hold one empty data point each, one metric per variant; the first resource holds one metric
with `Data` unset. -/
def testDataPointCountTree : otlpmetrics.MetricsData :=
  { ResourceMetrics := [
      { ScopeMetrics := [{ Metrics := [{}] }] },
      { ScopeMetrics := [{}] },
      { ScopeMetrics := [{ Metrics := [
          { Data := otlpmetrics.isMetric_Data.Metric_Gauge (some { DataPoints := [{}] }) },
          { Data := otlpmetrics.isMetric_Data.Metric_Sum (some { DataPoints := [{}] }) },
          { Data := otlpmetrics.isMetric_Data.Metric_Histogram (some { DataPoints := [{}] }) },
          { Data := otlpmetrics.isMetric_Data.Metric_ExponentialHistogram
              (some { DataPoints := [{}] }) },
          { Data := otlpmetrics.isMetric_Data.Metric_Summary (some { DataPoints := [{}] }) }] }] }] }

/-- The tree of `TestDataPointCountWithNilDataPoints`: a gauge, a histogram and a sum, each
just set by `SetDataType`. -/
def testNilDataPointsTree : otlpmetrics.MetricsData :=
  { ResourceMetrics := [{ ScopeMetrics := [{ Metrics := [
      Metric.SetDataType {} MetricDataTypeGauge,
      Metric.SetDataType {} MetricDataTypeHistogram,
      Metric.SetDataType {} MetricDataTypeSum] }] }] }

/-- A metric whose tag names a variant while the payload pointer of that variant is nil. -/
def payloadAbsent (m : otlpmetrics.Metric) : Bool :=
  match m.Data with
  | otlpmetrics.isMetric_Data.Metric_Gauge none => true
  | otlpmetrics.isMetric_Data.Metric_Sum none => true
  | otlpmetrics.isMetric_Data.Metric_Histogram none => true
  | otlpmetrics.isMetric_Data.Metric_ExponentialHistogram none => true
  | otlpmetrics.isMetric_Data.Metric_Summary none => true
  | _ => false

/-- A heap holding the four gap trees of the test suite at addresses 0 to 3, and at address 4 a
tree whose only metric is tagged Sum with a nil payload pointer. -/
def gapHeap : Heap :=
  { cells := [generateMetricsEmptyResource, generateMetricsEmptyInstrumentation,
      generateMetricsEmptyMetrics, generateMetricsEmptyDataPoints,
      { ResourceMetrics := [{ ScopeMetrics := [{ Metrics := [
          { Data := otlpmetrics.isMetric_Data.Metric_Sum none }] }] }] }] }

/-- A heap with scenario B at address 0 and the final tree of `TestMetricCount` at address 1. -/
def twoCellHeap : Heap :=
  { cells := [scenarioB, testMetricCountTree] }

/-! ## Enums and flags -/

/-- `MetricDataType.String` (lines 129-145). -/
def MetricDataType.String (mdt : MetricDataType) : String :=
  if mdt = MetricDataTypeNone then "None"
  else if mdt = MetricDataTypeGauge then "Gauge"
  else if mdt = MetricDataTypeSum then "Sum"
  else if mdt = MetricDataTypeHistogram then "Histogram"
  else if mdt = MetricDataTypeExponentialHistogram then "ExponentialHistogram"
  else if mdt = MetricDataTypeSummary then "Summary"
  else ""

/-- `type MetricValueType int32`. -/
abbrev MetricValueType := Int

def MetricValueTypeNone : MetricValueType := 0
def MetricValueTypeInt : MetricValueType := 1
def MetricValueTypeDouble : MetricValueType := 2

/-- `MetricValueType.String` (lines 231-241). -/
def MetricValueType.String (mdt : MetricValueType) : String :=
  if mdt = MetricValueTypeNone then "None"
  else if mdt = MetricValueTypeInt then "Int"
  else if mdt = MetricValueTypeDouble then "Double"
  else ""

/-- `type MetricDataPointFlags uint32`: a combined flags value.  Only `|` and `&` are applied
to it, which never leave the 32-bit range. -/
structure MetricDataPointFlags where
  val : Nat
  deriving DecidableEq, Repr

/-- `type MetricDataPointFlag uint32`: one flag, a type of its own so that it is not compared
with a combined value. -/
structure MetricDataPointFlag where
  val : Nat
  deriving DecidableEq, Repr

/-- `MetricDataPointFlagsNone` (line 188). -/
def MetricDataPointFlagsNone : MetricDataPointFlags :=
  { val := otlpmetrics.DataPointFlags_FLAG_NONE }

/-- `MetricDataPointFlagNoRecordedValue` (line 218). -/
def MetricDataPointFlagNoRecordedValue : MetricDataPointFlag :=
  { val := otlpmetrics.DataPointFlags_FLAG_NO_RECORDED_VALUE }

/-- `NewMetricDataPointFlags` (lines 193-199): `flag` starts at the zero value and every
parameter is or-ed into it, in order. -/
def NewMetricDataPointFlags (flags : List MetricDataPointFlag) : MetricDataPointFlags :=
  flags.foldl (fun flag f => { val := flag.val ||| f.val }) { val := 0 }

/-- `MetricDataPointFlags.HasFlag` (lines 202-204): `d&MetricDataPointFlags(flag) != 0`. -/
def MetricDataPointFlags.HasFlag (d : MetricDataPointFlags) (flag : MetricDataPointFlag) : Bool :=
  (d.val &&& flag.val) != 0

/-- `MetricDataPointFlags.String` (lines 207-209). -/
def MetricDataPointFlags.String (d : MetricDataPointFlags) : String :=
  otlpmetrics.DataPointFlags.String d.val

/-- A flag and a combined value share a set bit. -/
def sharesBit (f : MetricDataPointFlag) (fs : List MetricDataPointFlag) : Prop :=
  ∃ i : Nat, f.val.testBit i = true ∧ ∃ g ∈ fs, g.val.testBit i = true

/-! ## Copying a metric -/

/-- Modelled from the spec: `Metric.CopyTo` (generated code, §4.1): it deep-copies the entire
subtree of `ms` into `dest`, discarding the prior content of `dest`.  The result is the new
state of the metric that `dest.orig` points to: name, description, unit and payload are those
of `ms`. -/
def Metric.CopyTo (ms dest : otlpmetrics.Metric) : otlpmetrics.Metric :=
  { dest with Name := ms.Name, Description := ms.Description, Unit := ms.Unit, Data := ms.Data }

/-- The call `ms.At(k).CopyTo(ms.At(k1))` on the metric sequence of one scope, as the tests
make it. -/
def MetricSlice.CopyAt (ms : List otlpmetrics.Metric) (k k1 : Nat) :
    Option (List otlpmetrics.Metric) :=
  match Slice.At ms k with
  | none => none
  | some src => Slice.update ms k1 (fun dest => some (Metric.CopyTo src dest))

/-- Modelled from the spec: `HistogramDataPoint.HasSum` (generated code): the optional sum is
set. -/
def HistogramDataPoint.HasSum (ms : otlpmetrics.HistogramDataPoint) : Bool :=
  ms.Sum_.isSome

/-- Modelled from the spec: `HistogramDataPoint.SetSum` (generated code). -/
def HistogramDataPoint.SetSum (ms : otlpmetrics.HistogramDataPoint) (v : Nat) :
    otlpmetrics.HistogramDataPoint :=
  { ms with Sum_ := some v }

/-- The metric `histo` of `TestHistogramWithNilSum`: a histogram with one empty data point. -/
def histoNilSum : otlpmetrics.Metric :=
  { Data := otlpmetrics.isMetric_Data.Metric_Histogram (some { DataPoints := [{}] }) }

/-- The metric `histo` of `TestHistogramWithValidSum`: the sum of its data point is set to 10
(the bit pattern of the double 10). -/
def histoValidSum : otlpmetrics.Metric :=
  { Data := otlpmetrics.isMetric_Data.Metric_Histogram
      (some { DataPoints := [HistogramDataPoint.SetSum {} 4621819117588971520] }) }

/-- The optional-sum states of the histogram data points of a metric, in order. -/
def histogramSumStates (m : otlpmetrics.Metric) : List Bool :=
  match Metric.Histogram m with
  | none => []
  | some v => v.DataPoints.map HistogramDataPoint.HasSum

/-! ## Mutation through nested views -/

/-- Modelled from the spec: `AppendEmpty()` of an ordered-sequence view (generated code, §4.1):
it appends one zero-valued element, `zero`, to the backing store. -/
def Slice.AppendEmpty {α : Type} (zero : α) (es : List α) : List α := es ++ [zero]

/-- A mutation through the view `md.ResourceMetrics().At(i)`: the resource at `i` is replaced
by its new state in the cell of `md`. -/
def Metrics.updateResourceAt (h : Heap) (md : Metrics) (i : Nat)
    (f : otlpmetrics.ResourceMetrics → Option otlpmetrics.ResourceMetrics) : Option Heap :=
  match h.load md.orig with
  | none => none
  | some d =>
    match Slice.update d.ResourceMetrics i f with
    | none => none
    | some rms => h.store md.orig { d with ResourceMetrics := rms }

/-- A mutation through the view `md.ResourceMetrics().At(i).ScopeMetrics().At(j)`. -/
def Metrics.updateScopeAt (h : Heap) (md : Metrics) (i j : Nat)
    (f : otlpmetrics.ScopeMetrics → Option otlpmetrics.ScopeMetrics) : Option Heap :=
  md.updateResourceAt h i (fun rm =>
    (Slice.update rm.ScopeMetrics j f).map (fun ilms => { rm with ScopeMetrics := ilms }))

/-- A mutation through the view
`md.ResourceMetrics().At(i).ScopeMetrics().At(j).Metrics().At(k)`. -/
def Metrics.updateMetricAt (h : Heap) (md : Metrics) (i j k : Nat)
    (f : otlpmetrics.Metric → Option otlpmetrics.Metric) : Option Heap :=
  md.updateScopeAt h i j (fun ilm =>
    (Slice.update ilm.Metrics k f).map (fun ms => { ilm with Metrics := ms }))

/-- The call `md.ResourceMetrics().AppendEmpty()`. -/
def Metrics.AppendEmptyResource (h : Heap) (md : Metrics) : Option Heap :=
  match h.load md.orig with
  | none => none
  | some d =>
    h.store md.orig { d with ResourceMetrics := Slice.AppendEmpty {} d.ResourceMetrics }

/-- The call `md.ResourceMetrics().At(i).ScopeMetrics().AppendEmpty()`. -/
def Metrics.AppendEmptyScope (h : Heap) (md : Metrics) (i : Nat) : Option Heap :=
  md.updateResourceAt h i (fun rm =>
    some { rm with ScopeMetrics := Slice.AppendEmpty {} rm.ScopeMetrics })

/-- The call `md.ResourceMetrics().At(i).ScopeMetrics().At(j).Metrics().AppendEmpty()`. -/
def Metrics.AppendEmptyMetric (h : Heap) (md : Metrics) (i j : Nat) : Option Heap :=
  md.updateScopeAt h i j (fun ilm =>
    some { ilm with Metrics := Slice.AppendEmpty {} ilm.Metrics })

/-- The call `ms.Gauge().DataPoints().AppendEmpty()`, as the new state of the metric.  It fails
when the accessor does, and when the payload pointer is nil: there is no backing store to
append to. -/
def Metric.GaugeAppendEmpty (ms : otlpmetrics.Metric) : Option otlpmetrics.Metric :=
  match Metric.Gauge ms with
  | none => none
  | some v =>
    match v.orig with
    | none => none
    | some p =>
      some { ms with Data := (otlpmetrics.isMetric_Data.Metric_Gauge
        (some { p with DataPoints := Slice.AppendEmpty {} p.DataPoints })) }

/-- The call `ms.Sum().DataPoints().AppendEmpty()`. -/
def Metric.SumAppendEmpty (ms : otlpmetrics.Metric) : Option otlpmetrics.Metric :=
  match Metric.Sum ms with
  | none => none
  | some v =>
    match v.orig with
    | none => none
    | some p =>
      some { ms with Data := (otlpmetrics.isMetric_Data.Metric_Sum
        (some { p with DataPoints := Slice.AppendEmpty {} p.DataPoints })) }

/-- The call `ms.Histogram().DataPoints().AppendEmpty()`. -/
def Metric.HistogramAppendEmpty (ms : otlpmetrics.Metric) : Option otlpmetrics.Metric :=
  match Metric.Histogram ms with
  | none => none
  | some v =>
    match v.orig with
    | none => none
    | some p =>
      some { ms with Data := (otlpmetrics.isMetric_Data.Metric_Histogram
        (some { p with DataPoints := Slice.AppendEmpty {} p.DataPoints })) }

/-- The call `ms.ExponentialHistogram().DataPoints().AppendEmpty()`. -/
def Metric.ExponentialHistogramAppendEmpty (ms : otlpmetrics.Metric) :
    Option otlpmetrics.Metric :=
  match Metric.ExponentialHistogram ms with
  | none => none
  | some v =>
    match v.orig with
    | none => none
    | some p =>
      some { ms with Data := (otlpmetrics.isMetric_Data.Metric_ExponentialHistogram
        (some { p with DataPoints := Slice.AppendEmpty {} p.DataPoints })) }

/-- The call `ms.Summary().DataPoints().AppendEmpty()`. -/
def Metric.SummaryAppendEmpty (ms : otlpmetrics.Metric) : Option otlpmetrics.Metric :=
  match Metric.Summary ms with
  | none => none
  | some v =>
    match v.orig with
    | none => none
    | some p =>
      some { ms with Data := (otlpmetrics.isMetric_Data.Metric_Summary
        (some { p with DataPoints := Slice.AppendEmpty {} p.DataPoints })) }

/-- Appending one empty data point to the data-point sequence of the active payload: the caller
branches on `DataType()` and goes through the accessor of that variant, as the tests do.  A
None-tagged metric has no payload to append to. -/
def Metric.AppendEmptyDataPoint (ms : otlpmetrics.Metric) : Option otlpmetrics.Metric :=
  if Metric.DataType ms = MetricDataTypeGauge then Metric.GaugeAppendEmpty ms
  else if Metric.DataType ms = MetricDataTypeSum then Metric.SumAppendEmpty ms
  else if Metric.DataType ms = MetricDataTypeHistogram then Metric.HistogramAppendEmpty ms
  else if Metric.DataType ms = MetricDataTypeExponentialHistogram then
    Metric.ExponentialHistogramAppendEmpty ms
  else if Metric.DataType ms = MetricDataTypeSummary then Metric.SummaryAppendEmpty ms
  else none

/-- Appending one empty data point to the metric at `i`, `j`, `k` of `md`. -/
def Metrics.AppendEmptyDataPoint (h : Heap) (md : Metrics) (i j k : Nat) : Option Heap :=
  md.updateMetricAt h i j k Metric.AppendEmptyDataPoint

/-- All metrics under one resource, scope after scope. -/
def metricsOfResource (rm : otlpmetrics.ResourceMetrics) : List otlpmetrics.Metric :=
  rm.ScopeMetrics.foldr (fun ilm acc => ilm.Metrics ++ acc) []

/-- All metrics of a tree, resource after resource. -/
def allMetrics (d : otlpmetrics.MetricsData) : List otlpmetrics.Metric :=
  d.ResourceMetrics.foldr (fun rm acc => metricsOfResource rm ++ acc) []

/-- A heap for the examples of additivity: the cells hold the resource sequences `A`, `B` and
`A` followed by `B`, where `A` is that of scenario B and `B` that of the final tree of
`TestMetricAndDataPointCount`. -/
def additiveHeap : Heap :=
  { cells := [scenarioB, testDataPointCountTree,
      { ResourceMetrics := scenarioB.ResourceMetrics ++ testDataPointCountTree.ResourceMetrics }] }

end pdata

/-! # Go errors -/

namespace golang

/-- A Go error value, as far as `==` and `errors.Is` see it: a value made by `errors.New`, a
package-level error variable, or an error that wraps another one (`fmt.Errorf` with `%w`,
whose `Unwrap` returns the wrapped error). -/
inductive Error where
  | New (text : String)
  | Var (pkg : String) (name : String)
  | Wrap (text : String) (err : Error)
  deriving DecidableEq, Repr

/-- `errors.Is(err, target)` of the standard library: `err` or an error of its `Unwrap` chain is
equal to `target`. -/
def errors.Is (err target : Error) : Bool :=
  if err = target then true
  else
    match err with
    | Error.Wrap _ inner => errors.Is inner target
    | _ => false

end golang

/-! # The traces processor helper: `processor/processorhelper/traces.go` -/

namespace processorhelper

/-- The sentinel `ErrSkipProcessingData` of this package (declared outside `traces.go`). -/
def ErrSkipProcessingData : golang.Error :=
  golang.Error.Var "processorhelper" "ErrSkipProcessingData"

/-- The sentinel `componenterror.ErrNilNextConsumer`. -/
def ErrNilNextConsumer : golang.Error :=
  golang.Error.Var "componenterror" "ErrNilNextConsumer"

/-- What the consumer does to the outside, in order: an event added to the span of the
context, or a call of `ConsumeTraces` of the next consumer with the data passed. -/
inductive Event (τ A : Type) where
  | AddEvent (name : String) (options : A)
  | ConsumeTraces (td : τ)
  deriving DecidableEq, Repr

/-- `type ProcessTracesFunc func(context.Context, pdata.Traces) (pdata.Traces, error)` (line 32);
`W` is the state the function may read and change. -/
abbrev ProcessTracesFunc (τ W : Type) := τ → W → (τ × Option golang.Error) × W

/-- The method `ConsumeTraces` of the next consumer. -/
abbrev NextConsumeTraces (τ W : Type) := τ → W → Option golang.Error × W

/-- One run of the consumer function: the error returned, the events in order, the state
left. -/
structure Run (τ A W : Type) where
  err : Option golang.Error
  events : List (Event τ A)
  world : W

/-- The data passed to the next consumer during a run, one entry per call. -/
def Run.consumed {τ A W : Type} (r : Run τ A W) : List τ :=
  r.events.filterMap (fun e =>
    match e with
    | Event.ConsumeTraces td => some td
    | Event.AddEvent _ _ => none)

/-- The function literal passed to `consumer.NewTraces` (lines 58-71). -/
def NewTracesProcessor.consume {τ A W : Type} (eventOptions : A)
    (nextConsumer : NextConsumeTraces τ W) (tracesFunc : ProcessTracesFunc τ W)
    (td : τ) (w : W) : Run τ A W :=
  let started := [Event.AddEvent "Start processing." eventOptions]
  let r := tracesFunc td w
  let td := r.1.1
  let err := r.1.2
  let ended := started ++ [Event.AddEvent "End processing." eventOptions]
  match err with
  | some err =>
    if golang.errors.Is err ErrSkipProcessingData then
      { err := none, events := ended, world := r.2 }
    else
      { err := some err, events := ended, world := r.2 }
  | none =>
    let n := nextConsumer td r.2
    { err := n.1, events := ended ++ [Event.ConsumeTraces td], world := n.2 }

/-- The settings `fromOptions` returns, as far as `NewTracesProcessor` reads them. -/
structure baseSettings (F CO : Type) where
  StartFunc : F
  ShutdownFunc : F
  consumerOptions : List CO

/-- `type tracesProcessor struct` (lines 34-38). -/
structure tracesProcessor (F CT : Type) where
  StartFunc : F
  ShutdownFunc : F
  Traces : CT

/-- The functions of other files that `NewTracesProcessor` calls: `spanAttributes`,
`fromOptions` and `consumer.NewTraces`.  They are parameters of the embedding. -/
structure Callees (τ A W F CO CT Opt ID : Type) where
  spanAttributes : ID → A
  fromOptions : List Opt → baseSettings F CO
  NewTraces : (τ → W → Run τ A W) → List CO → Except golang.Error CT

/-- `NewTracesProcessor` (lines 42-82).  `cfgID` is `cfg.ID()`; a nil `nextConsumer` or
`tracesFunc` is `none`. -/
def NewTracesProcessor {τ A W F CO CT Opt ID : Type} (c : Callees τ A W F CO CT Opt ID)
    (cfgID : ID) (nextConsumer : Option (NextConsumeTraces τ W))
    (tracesFunc : Option (ProcessTracesFunc τ W)) (options : List Opt) :
    Except golang.Error (tracesProcessor F CT) :=
  match tracesFunc with
  | none => Except.error (golang.Error.New "nil tracesFunc")
  | some tracesFunc =>
    match nextConsumer with
    | none => Except.error ErrNilNextConsumer
    | some nextConsumer =>
      let eventOptions := c.spanAttributes cfgID
      let bs := c.fromOptions options
      match c.NewTraces (NewTracesProcessor.consume eventOptions nextConsumer tracesFunc)
          bs.consumerOptions with
      | Except.error err => Except.error err
      | Except.ok traceConsumer =>
        Except.ok { StartFunc := bs.StartFunc, ShutdownFunc := bs.ShutdownFunc,
                    Traces := traceConsumer }

/-- Callees for the examples: no options, and `consumer.NewTraces` hands back the function it
is given. -/
def plainCallees (τ W : Type) :
    Callees τ String W Unit Unit (τ → W → Run τ String W) Unit String where
  spanAttributes := fun id => id
  fromOptions := fun _ => { StartFunc := (), ShutdownFunc := (), consumerOptions := [] }
  NewTraces := fun f _ => Except.ok f

/-- A processing function for the examples: it doubles the data, counts its calls in the state
and fails on the data 0 with an error that is not the skip sentinel, and on the data 1 with an
error that wraps the skip sentinel. -/
def sampleTracesFunc : ProcessTracesFunc Nat Nat :=
  fun td w =>
    if td = 0 then ((td, some (golang.Error.New "bad data")), w + 1)
    else if td = 1 then
      ((td, some (golang.Error.Wrap "skipped" ErrSkipProcessingData)), w + 1)
    else ((2 * td, none), w + 1)

/-- A next consumer for the examples: it refuses data above 100. -/
def sampleNext : NextConsumeTraces Nat Nat :=
  fun td w => (if td > 100 then some (golang.Error.New "too large") else none, w + 10)

end processorhelper

/-! # The observed exporter queue: `exporter/exporterhelper/internal/obs_queue.go` -/

namespace exporterhelper

/-- The signals of package `pipeline`: the three that `Offer` switches on, and any other (such
as profiles). -/
inductive Signal where
  | SignalTraces
  | SignalMetrics
  | SignalLogs
  | Other (name : String)
  deriving DecidableEq, Repr

/-- One recorded measurement: the value added to a counter and the measurement option passed
with it. -/
structure Measurement (A : Type) where
  val : Int
  options : A
  deriving DecidableEq, Repr

/-- Modelled from the spec: the enqueue-failed counters of `metadata.TelemetryBuilder`
(generated code), each as the measurements recorded on it, oldest first. -/
structure TelemetryBuilder (A : Type) where
  ExporterEnqueueFailedSpans : List (Measurement A) := []
  ExporterEnqueueFailedMetricPoints : List (Measurement A) := []
  ExporterEnqueueFailedLogRecords : List (Measurement A) := []
  deriving DecidableEq, Repr

/-- Modelled from the spec: `RecordExporterEnqueueFailedSpans` (generated code) records one
measurement on the span counter. -/
def TelemetryBuilder.RecordExporterEnqueueFailedSpans {A : Type} (tb : TelemetryBuilder A)
    (val : Int) (opts : A) : TelemetryBuilder A :=
  { tb with ExporterEnqueueFailedSpans :=
      tb.ExporterEnqueueFailedSpans ++ [{ val := val, options := opts }] }

/-- Modelled from the spec: `RecordExporterEnqueueFailedMetricPoints` (generated code). -/
def TelemetryBuilder.RecordExporterEnqueueFailedMetricPoints {A : Type}
    (tb : TelemetryBuilder A) (val : Int) (opts : A) : TelemetryBuilder A :=
  { tb with ExporterEnqueueFailedMetricPoints :=
      tb.ExporterEnqueueFailedMetricPoints ++ [{ val := val, options := opts }] }

/-- Modelled from the spec: `RecordExporterEnqueueFailedLogRecords` (generated code). -/
def TelemetryBuilder.RecordExporterEnqueueFailedLogRecords {A : Type}
    (tb : TelemetryBuilder A) (val : Int) (opts : A) : TelemetryBuilder A :=
  { tb with ExporterEnqueueFailedLogRecords :=
      tb.ExporterEnqueueFailedLogRecords ++ [{ val := val, options := opts }] }

/-- `type obsQueue[T request.Request] struct` (lines 19-24).  `Queue` is the method `Offer` of
the delegate: it returns its error and leaves a new state of the request, which it may modify,
and of the queue.  `ItemsCount` is the method of the request type `T`.  The telemetry builder
`tb` points to is passed to `Offer` as state. -/
structure obsQueue (T Q A : Type) where
  Queue : T → Q → (Option golang.Error × T) × Q
  ItemsCount : T → Int
  metricAttr : A
  signal : Signal

/-- The result of `Offer`: the error returned, and the request, the delegate queue and the
telemetry builder as the call leaves them. -/
structure Offered (T Q A : Type) where
  err : Option golang.Error
  req : T
  queue : Q
  tb : TelemetryBuilder A

/-- `obsQueue.Offer` (lines 65-82). -/
def obsQueue.Offer {T Q A : Type} (or : obsQueue T Q A) (req : T) (q : Q)
    (tb : TelemetryBuilder A) : Offered T Q A :=
  let numItems := or.ItemsCount req
  let r := or.Queue req q
  let err := r.1.1
  let tb1 :=
    match err with
    | some _ =>
      match or.signal with
      | Signal.SignalTraces => tb.RecordExporterEnqueueFailedSpans numItems or.metricAttr
      | Signal.SignalMetrics => tb.RecordExporterEnqueueFailedMetricPoints numItems or.metricAttr
      | Signal.SignalLogs => tb.RecordExporterEnqueueFailedLogRecords numItems or.metricAttr
      | Signal.Other _ => tb
    | none => tb
  { err := err, req := r.1.2, queue := r.2, tb := tb1 }

/-- A delegate for the examples: a queue of capacity 2 holding batches of items.  A request on
a full queue is refused; in both cases the delegate empties the request it was given. -/
def sampleQueue (signal : Signal) : obsQueue (List Nat) (List (List Nat)) String where
  Queue := fun req q =>
    if q.length < 2 then ((none, []), q ++ [req])
    else ((some (golang.Error.New "sending queue is full"), []), q)
  ItemsCount := fun req => req.length
  metricAttr := "exporter"
  signal := signal

end exporterhelper

/-! # The client CA file reloader: `config/configtls/clientcasfilereloader.go` -/

namespace tls

/-- `tls.ClientAuthType` of the standard library. -/
inductive ClientAuthType where
  | NoClientCert
  | RequestClientCert
  | RequireAnyClientCert
  | VerifyClientCertIfGiven
  | RequireAndVerifyClientCert
  deriving DecidableEq, Repr

/-- `tls.Config` of the standard library: the eight fields `getClientConfig` reads or sets and,
of the fields it leaves at their zero value, `ServerName` and `InsecureSkipVerify`.  `P` is the
type of a cert pool, `GC` and `GCC` the types of the two callbacks; a nil pointer or callback
is `none`. -/
structure Config (P GC GCC : Type) where
  RootCAs : Option P := none
  GetCertificate : Option GC := none
  GetClientCertificate : Option GCC := none
  MinVersion : Nat := 0
  MaxVersion : Nat := 0
  NextProtos : List String := []
  ClientCAs : Option P := none
  ClientAuth : ClientAuthType := ClientAuthType.NoClientCert
  ServerName : String := ""
  InsecureSkipVerify : Bool := false
  deriving DecidableEq, Repr

end tls

namespace configtls

/-- `type clientCAsFileLoader interface` (lines 22-24).  A call of `loadClientCAFile` returns a
pool and an error and leaves a new state `L` of the loader. -/
structure clientCAsFileLoader (P L : Type) where
  loadClientCAFile : L → (Option P × Option golang.Error) × L

/-- `type clientCAsFileReloader struct` (lines 13-20), without the lock: the calls are taken
one at a time. -/
structure clientCAsFileReloader (P L : Type) where
  clientCAsFile : String
  certPool : Option P
  lastReloadError : Option golang.Error
  loader : clientCAsFileLoader P L
  reload : Bool

/-- What `newClientCAsReloader` returns and leaves: the reloader (nil is `none`), the error, the
state of the loader and the number of calls of `loadClientCAFile` it made. -/
structure Created (P L : Type) where
  reloader : Option (clientCAsFileReloader P L)
  err : Option golang.Error
  loaderState : L
  loaderCalls : Nat

/-- `newClientCAsReloader` (lines 26-39). -/
def newClientCAsReloader {P L : Type} (clientCAsFile : String)
    (loader : clientCAsFileLoader P L) (l : L) : Created P L :=
  let r := loader.loadClientCAFile l
  let certPool := r.1.1
  match r.1.2 with
  | some err =>
    { reloader := none,
      err := some (golang.Error.Wrap "failed to load client CA CertPool: " err),
      loaderState := r.2, loaderCalls := 1 }
  | none =>
    { reloader := some { clientCAsFile := clientCAsFile, certPool := certPool,
                         lastReloadError := none, loader := loader, reload := false },
      err := none, loaderState := r.2, loaderCalls := 1 }

/-- `enableReloadClientCAFile` (lines 41-43). -/
def clientCAsFileReloader.enableReloadClientCAFile {P L : Type}
    (r : clientCAsFileReloader P L) : clientCAsFileReloader P L :=
  { r with reload := true }

/-- What `getClientConfig` returns and leaves: the config, the error, the reloader and the
loader as the call leaves them, and the number of calls of `loadClientCAFile` it made. -/
structure Served (P GC GCC L : Type) where
  config : tls.Config P GC GCC
  err : Option golang.Error
  reloader : clientCAsFileReloader P L
  loaderState : L
  loaderCalls : Nat

/-- `getClientConfig` (lines 45-66).  `original` is the config the pointer refers to; it is
only read. -/
def clientCAsFileReloader.getClientConfig {P GC GCC L : Type} (r : clientCAsFileReloader P L)
    (original : tls.Config P GC GCC) (l : L) : Served P GC GCC L :=
  let after : clientCAsFileReloader P L × L × Nat :=
    if r.reload then
      let res := r.loader.loadClientCAFile l
      let certPool := res.1.1
      match res.1.2 with
      | none => ({ r with certPool := certPool }, res.2, 1)
      | some _ => (r, res.2, 1)
    else (r, l, 0)
  let r := after.1
  { config :=
      { RootCAs := original.RootCAs,
        GetCertificate := original.GetCertificate,
        GetClientCertificate := original.GetClientCertificate,
        MinVersion := original.MinVersion,
        MaxVersion := original.MaxVersion,
        NextProtos := original.NextProtos,
        ClientCAs := r.certPool,
        ClientAuth := tls.ClientAuthType.RequireAndVerifyClientCert },
    err := none,
    reloader := r,
    loaderState := after.2.1,
    loaderCalls := after.2.2 }

/-- The state of `testLoader` of the tests (lines 32-35): the error to return, if any, and the
call counter. -/
structure testLoader where
  err : Option golang.Error := none
  counter : Nat := 0
  deriving DecidableEq, Repr

/-- `testLoader.loadClientCAFile` of the tests (lines 37-46): it counts the call and returns a
nil pool with the stored error, if any. -/
def testLoader.loadClientCAFile : clientCAsFileLoader String testLoader where
  loadClientCAFile := fun r => ((none, r.err), { r with counter := r.counter + 1 })

/-- A loader for the examples that returns the pool named in its state, or fails when the name
is empty. -/
def fileLoader : clientCAsFileLoader String String where
  loadClientCAFile := fun l =>
    if l = "" then ((none, some (golang.Error.New "no such file")), l)
    else ((some l, none), l)

/-- A reloader for the examples: it holds the pool "old" and reload is enabled. -/
def sampleReloader : clientCAsFileReloader String String :=
  { clientCAsFile := "/etc/ca.crt", certPool := some "old", lastReloadError := none,
    loader := fileLoader, reload := true }

/-- A config for the examples, with every field set away from its zero value. -/
def sampleConfig : tls.Config String String String :=
  { RootCAs := some "roots", GetCertificate := some "getCertificate",
    GetClientCertificate := some "getClientCertificate", MinVersion := 771, MaxVersion := 772,
    NextProtos := ["h2"], ClientCAs := some "stale",
    ClientAuth := tls.ClientAuthType.NoClientCert, ServerName := "collector",
    InsecureSkipVerify := true }

end configtls

namespace pdata

/-! ## Loops over a sequence -/

theorem forLoop_slice {α σ : Type} (es : List α) (step : α → σ → Option σ)
    (body : Nat → σ → Option σ)
    (hb : ∀ i s, body i s = match Slice.At es i with
      | none => none
      | some e => step e s) :
    ∀ (l : List α) (i fuel : Nat) (s : σ), es.drop i = l → l.length ≤ fuel →
      forLoop es.length body fuel i s = l.foldlM (fun s e => step e s) s := by
  intro l
  induction l with
  | nil =>
    intro i fuel s hd _
    have hi : ¬ i < es.length := by
      intro hlt
      have := congrArg List.length hd
      simp at this
      omega
    cases fuel <;> simp [forLoop, hi]
  | cons e l ih =>
    intro i fuel s hd hf
    have hlen : i < es.length := by
      have := congrArg List.length hd
      simp at this
      omega
    have hget : es[i]? = some e := by
      have h1 : (es.drop i)[0]? = some e := by rw [hd]; simp
      simpa using h1
    have hd1 : es.drop (i + 1) = l := by
      have : es.drop (i + 1) = (es.drop i).drop 1 := by simp [List.drop_drop, Nat.add_comm]
      rw [this, hd]; rfl
    cases fuel with
    | zero => simp at hf
    | succ fuel =>
      have hf1 : l.length ≤ fuel := by simpa using hf
      simp only [forLoop, hlen, if_true, hb, Slice.At, hget, List.foldlM_cons]
      cases hs : step e s with
      | none => simp [hs]
      | some s1 => simpa [hs] using ih (i + 1) fuel s1 hd1 hf1

theorem foldlM_add {α : Type} (w : α → Nat) (step : α → Nat → Option Nat)
    (hs : ∀ e s, step e s = some (s + w e)) :
    ∀ (l : List α) (s : Nat), l.foldlM (fun s e => step e s) s = some (s + (l.map w).sum) := by
  intro l
  induction l with
  | nil => intro s; simp
  | cons e l ih =>
    intro s
    have h1 := ih (s + w e)
    simp only [List.foldlM_cons, hs, List.map_cons, List.sum_cons]
    simpa [hs, Nat.add_assoc] using h1

theorem forLoop_sum {α : Type} (es : List α) (w : α → Nat) (body : Nat → Nat → Option Nat)
    (hb : ∀ i s, body i s = match Slice.At es i with
      | none => none
      | some e => some (s + w e)) (s : Nat) :
    forLoop (Slice.Len es) body (Slice.Len es) 0 s = some (s + (es.map w).sum) := by
  have h1 := forLoop_slice es (fun e s => some (s + w e)) body hb es 0 es.length s (by simp)
    (Nat.le_refl _)
  rw [Slice.Len, h1]
  exact foldlM_add w (fun e s => some (s + w e)) (fun _ _ => rfl) es s

/-! ## The counting walks -/

theorem MetricCount_scopes_eq (ilms : List otlpmetrics.ScopeMetrics) (s : Nat) :
    Metrics.MetricCount.scopes ilms s
      = some (s + (ilms.map (fun ilm => ilm.Metrics.length)).sum) := by
  unfold Metrics.MetricCount.scopes
  apply forLoop_sum ilms (fun ilm => ilm.Metrics.length)
  intro i s
  cases Slice.At ilms i <;> simp [Slice.Len]

theorem MetricCount_load (h : Heap) (md : Metrics) (d : otlpmetrics.MetricsData)
    (hd : h.load md.orig = some d) :
    md.MetricCount h = some ((d.ResourceMetrics.map metricsUnder).sum) := by
  unfold Metrics.MetricCount Metrics.ResourceMetrics
  simp only [hd]
  have := forLoop_sum d.ResourceMetrics metricsUnder
    (fun i metricCount =>
        match Slice.At d.ResourceMetrics i with
        | none => none
        | some rm => Metrics.MetricCount.scopes rm.ScopeMetrics metricCount)
    (by
      intro i s
      cases hAt : Slice.At d.ResourceMetrics i <;> simp [hAt, MetricCount_scopes_eq, metricsUnder]) 0
  simpa using this

theorem DataPointCount_metric_eq (m : otlpmetrics.Metric) (s : Nat) :
    Metrics.DataPointCount.metric m s = some (s + dataPointsOf m) := by
  obtain ⟨n, de, u, data⟩ := m
  cases data <;> rfl

theorem DataPointCount_metrics_eq (ms : List otlpmetrics.Metric) (s : Nat) :
    Metrics.DataPointCount.metrics ms s = some (s + (ms.map dataPointsOf).sum) := by
  unfold Metrics.DataPointCount.metrics
  apply forLoop_sum ms dataPointsOf
  intro i s
  cases Slice.At ms i <;> simp [DataPointCount_metric_eq]

theorem DataPointCount_scopes_eq (ilms : List otlpmetrics.ScopeMetrics) (s : Nat) :
    Metrics.DataPointCount.scopes ilms s = some (s + (ilms.map pointsInScope).sum) := by
  unfold Metrics.DataPointCount.scopes
  apply forLoop_sum ilms pointsInScope
  intro i s
  cases Slice.At ilms i <;> simp [DataPointCount_metrics_eq, pointsInScope]

theorem DataPointCount_load (h : Heap) (md : Metrics) (d : otlpmetrics.MetricsData)
    (hd : h.load md.orig = some d) :
    md.DataPointCount h = some ((d.ResourceMetrics.map pointsUnder).sum) := by
  unfold Metrics.DataPointCount Metrics.ResourceMetrics
  simp only [hd]
  have := forLoop_sum d.ResourceMetrics pointsUnder
    (fun i dataPointCount =>
        match Slice.At d.ResourceMetrics i with
        | none => none
        | some rm => Metrics.DataPointCount.scopes rm.ScopeMetrics dataPointCount)
    (by
      intro i s
      cases hAt : Slice.At d.ResourceMetrics i <;> simp [hAt, DataPointCount_scopes_eq, pointsUnder]) 0
  simpa using this

/-! ## The heap -/

theorem Heap.load_store_same (h h1 : Heap) (p : Option Nat) (v : otlpmetrics.MetricsData)
    (hs : h.store p v = some h1) : h1.load p = some v := by
  cases p with
  | none => simp [Heap.store] at hs
  | some a =>
    simp only [Heap.store] at hs
    split at hs
    · rename_i hlt
      cases hs
      simp [Heap.load, hlt]
    · cases hs

theorem Heap.load_store_other (h h1 : Heap) (p q : Option Nat) (v : otlpmetrics.MetricsData)
    (hs : h.store p v = some h1) (hpq : q ≠ p) : h1.load q = h.load q := by
  cases p with
  | none => simp [Heap.store] at hs
  | some a =>
    simp only [Heap.store] at hs
    split at hs
    · cases hs
      cases q with
      | none => rfl
      | some b =>
        have hab : a ≠ b := fun e => hpq (by rw [e])
        simp [Heap.load, List.getElem?_set_ne hab]
    · cases hs

theorem Heap.store_some_of_load (h : Heap) (p : Option Nat) (d v : otlpmetrics.MetricsData)
    (hd : h.load p = some d) : ∃ h1, h.store p v = some h1 := by
  cases p with
  | none => simp [Heap.load] at hd
  | some a =>
    have hlt : a < h.cells.length := by
      simp only [Heap.load] at hd
      exact (List.getElem?_eq_some_iff.mp hd).1
    exact ⟨{ cells := h.cells.set a v }, by simp [Heap.store, hlt]⟩

theorem Heap.load_alloc_new (h : Heap) (v : otlpmetrics.MetricsData) :
    (h.alloc v).1.load (some (h.alloc v).2) = some v := by
  simp [Heap.alloc, Heap.load]

theorem Heap.load_alloc_old (h : Heap) (v d : otlpmetrics.MetricsData) (p : Option Nat)
    (hd : h.load p = some d) : (h.alloc v).1.load p = some d := by
  cases p with
  | none => simp [Heap.load] at hd
  | some a =>
    simp only [Heap.load] at hd
    have hlt : a < h.cells.length := (List.getElem?_eq_some_iff.mp hd).1
    simp [Heap.alloc, Heap.load, List.getElem?_append_left hlt, hd]

theorem Heap.load_fresh (h : Heap) : h.load (some (h.alloc {}).2) = none := by
  simp [Heap.alloc, Heap.load]

theorem NewMetrics_load (h : Heap) : (NewMetrics h).1.load (NewMetrics h).2.orig = some {} :=
  Heap.load_alloc_new h {}

/-! ## Ignorable metrics -/

theorem dataPointsOf_of_ignorable (m : otlpmetrics.Metric) (hm : ignorable m = true) :
    dataPointsOf m = 0 := by
  obtain ⟨n, de, u, data⟩ := m
  cases data <;> simp_all [ignorable, dataPointsOf, Metric.DataType, MetricDataTypeNone,
    MetricDataTypeGauge, MetricDataTypeSum, MetricDataTypeHistogram,
    MetricDataTypeExponentialHistogram, MetricDataTypeSummary]

theorem sum_filter_not_ignorable (ms : List otlpmetrics.Metric) :
    ((ms.filter (fun m => !ignorable m)).map dataPointsOf).sum = (ms.map dataPointsOf).sum := by
  induction ms with
  | nil => rfl
  | cons m ms ih =>
    cases hm : ignorable m
    · simp [List.filter, hm, ih]
    · simp [List.filter, hm, ih, dataPointsOf_of_ignorable m hm]

theorem pointsInScope_stripScope (ilm : otlpmetrics.ScopeMetrics) :
    pointsInScope (stripScope ilm) = pointsInScope ilm := by
  simp [pointsInScope, stripScope, sum_filter_not_ignorable]

theorem pointsUnder_stripResource (rm : otlpmetrics.ResourceMetrics) :
    pointsUnder (stripResource rm) = pointsUnder rm := by
  simp [pointsUnder, stripResource, List.map_map, Function.comp_def, pointsInScope_stripScope]

theorem points_stripIgnorable (d : otlpmetrics.MetricsData) :
    ((stripIgnorable d).ResourceMetrics.map pointsUnder).sum
      = (d.ResourceMetrics.map pointsUnder).sum := by
  simp [stripIgnorable, List.map_map, Function.comp_def, pointsUnder_stripResource]

theorem points_zero_of_all_ignorable (d : otlpmetrics.MetricsData)
    (hall : ∀ rm ∈ d.ResourceMetrics, ∀ ilm ∈ rm.ScopeMetrics, ∀ m ∈ ilm.Metrics,
      ignorable m = true) :
    (d.ResourceMetrics.map pointsUnder).sum = 0 := by
  apply List.sum_eq_zero
  intro x hx
  obtain ⟨rm, hrm, rfl⟩ := List.mem_map.mp hx
  apply List.sum_eq_zero
  intro y hy
  obtain ⟨ilm, hilm, rfl⟩ := List.mem_map.mp hy
  apply List.sum_eq_zero
  intro z hz
  obtain ⟨m, hm, rfl⟩ := List.mem_map.mp hz
  exact dataPointsOf_of_ignorable m (hall rm hrm ilm hilm m hm)

/-! ## Flags -/

theorem foldl_or_testBit (fs : List MetricDataPointFlag) (acc : MetricDataPointFlags) (i : Nat) :
    (fs.foldl (fun flag f => ({ val := flag.val ||| f.val } : MetricDataPointFlags)) acc).val.testBit i
        = true
      ↔ acc.val.testBit i = true ∨ ∃ g ∈ fs, g.val.testBit i = true := by
  induction fs generalizing acc with
  | nil => simp
  | cons g fs ih =>
    rw [List.foldl_cons, ih]
    simp only [Nat.testBit_or, Bool.or_eq_true, List.mem_cons, exists_eq_or_imp]
    tauto

theorem HasFlag_iff (d : MetricDataPointFlags) (f : MetricDataPointFlag) :
    d.HasFlag f = true ↔ ∃ i : Nat, d.val.testBit i = true ∧ f.val.testBit i = true := by
  unfold MetricDataPointFlags.HasFlag
  constructor
  · intro h
    have hne : d.val &&& f.val ≠ 0 := by simpa using h
    obtain ⟨i, hi⟩ := Nat.ne_zero_implies_bit_true hne
    exact ⟨i, by simpa [Nat.testBit_and] using hi⟩
  · rintro ⟨i, hd, hf⟩
    have hne : d.val &&& f.val ≠ 0 := by
      intro h0
      have hb : (d.val &&& f.val).testBit i = true := by simp [Nat.testBit_and, hd, hf]
      rw [h0] at hb
      simp at hb
    simpa using hne

/-! ## Enum values -/

theorem int_outside_0_5 (x : Int) (h : x < 0 ∨ 5 < x) :
    x ≠ 0 ∧ x ≠ 1 ∧ x ≠ 2 ∧ x ≠ 3 ∧ x ≠ 4 ∧ x ≠ 5 := by omega

theorem int_within_0_5 (x : Int) (h0 : 0 ≤ x) (h5 : x ≤ 5) :
    x = 0 ∨ x = 1 ∨ x = 2 ∨ x = 3 ∨ x = 4 ∨ x = 5 := by omega

theorem int_outside_0_2 (x : Int) (h : x < 0 ∨ 2 < x) : x ≠ 0 ∧ x ≠ 1 ∧ x ≠ 2 := by omega

/-! ## Copying a metric -/

theorem Metric_CopyTo_eq (ms dest : otlpmetrics.Metric) : Metric.CopyTo ms dest = ms := rfl

/-! ## Claims -/

/-- C1: for every Metrics value whose cell holds resources `r_1..r_R`, resource `r_i` holding
scopes `s_i1..s_iS` and scope `s_ij` a metric sequence of length `M_ij`, `MetricCount()` returns
exactly the sum over all `i` and `j` of `M_ij`. -/
theorem MetricCount_eq_sum (h : Heap) (md : Metrics) (d : otlpmetrics.MetricsData)
    (hd : h.load md.orig = some d) :
    md.MetricCount h
      = some ((d.ResourceMetrics.map
          (fun rm => (rm.ScopeMetrics.map (fun ilm => ilm.Metrics.length)).sum)).sum) :=
  MetricCount_load h md d hd

/-- Witness of C1 on the final tree of `TestMetricCount`: the count is 6. -/
theorem MetricCount_eq_sum_witness :
    Metrics.MetricCount { cells := [testMetricCountTree] } { orig := some 0 } = some 6 :=
  MetricCount_eq_sum { cells := [testMetricCountTree] } { orig := some 0 } testMetricCountTree rfl

/-- C2: for every Metrics value, `DataPointCount()` returns the sum, over every metric of every
scope of every resource, of the length of the data-point sequence of the payload selected by the
metric's `DataType()`: `dataPointsOf m` is the length read through the accessor of the variant
that `DataType()` names, and 0 when `DataType()` is None. -/
theorem DataPointCount_eq_sum (h : Heap) (md : Metrics) (d : otlpmetrics.MetricsData)
    (hd : h.load md.orig = some d) :
    md.DataPointCount h
        = some ((d.ResourceMetrics.map
            (fun rm => (rm.ScopeMetrics.map
              (fun ilm => (ilm.Metrics.map dataPointsOf).sum)).sum)).sum)
      ∧ (∀ m : otlpmetrics.Metric, Metric.DataType m = MetricDataTypeNone → dataPointsOf m = 0)
      ∧ (∀ m : otlpmetrics.Metric, Metric.DataType m = MetricDataTypeGauge →
          ∃ v, Metric.Gauge m = some v ∧ dataPointsOf m = Slice.Len v.DataPoints)
      ∧ (∀ m : otlpmetrics.Metric, Metric.DataType m = MetricDataTypeSum →
          ∃ v, Metric.Sum m = some v ∧ dataPointsOf m = Slice.Len v.DataPoints)
      ∧ (∀ m : otlpmetrics.Metric, Metric.DataType m = MetricDataTypeHistogram →
          ∃ v, Metric.Histogram m = some v ∧ dataPointsOf m = Slice.Len v.DataPoints)
      ∧ (∀ m : otlpmetrics.Metric, Metric.DataType m = MetricDataTypeExponentialHistogram →
          ∃ v, Metric.ExponentialHistogram m = some v
            ∧ dataPointsOf m = Slice.Len v.DataPoints)
      ∧ (∀ m : otlpmetrics.Metric, Metric.DataType m = MetricDataTypeSummary →
          ∃ v, Metric.Summary m = some v ∧ dataPointsOf m = Slice.Len v.DataPoints) := by
  refine ⟨DataPointCount_load h md d hd, ?_, ?_, ?_, ?_, ?_, ?_⟩
  · intro m hm
    exact dataPointsOf_of_ignorable m (by simp [ignorable, hm])
  all_goals
    intro m hm
    obtain ⟨n, de, u, data⟩ := m
    cases data <;>
      first
        | exact ⟨_, rfl, rfl⟩
        | (simp [Metric.DataType, MetricDataTypeNone, MetricDataTypeGauge, MetricDataTypeSum,
            MetricDataTypeHistogram, MetricDataTypeExponentialHistogram,
            MetricDataTypeSummary] at hm)

/-- Witness of C2 on scenario B and on the final tree of `TestMetricAndDataPointCount`. -/
theorem DataPointCount_eq_sum_witness :
    Metrics.DataPointCount { cells := [scenarioB, testDataPointCountTree] } { orig := some 0 }
        = some 2
      ∧ Metrics.DataPointCount { cells := [scenarioB, testDataPointCountTree] } { orig := some 1 }
        = some 5 :=
  ⟨(DataPointCount_eq_sum { cells := [scenarioB, testDataPointCountTree] } { orig := some 0 }
      scenarioB rfl).1,
   (DataPointCount_eq_sum { cells := [scenarioB, testDataPointCountTree] } { orig := some 1 }
      testDataPointCountTree rfl).1⟩

/-- C3: `DataPointCount()` ignores every metric whose `DataType()` is None or whose payload has
no data points: removing all such metrics leaves the count unchanged, any two trees that differ
only in such metrics (so also a tree with any number of them added to any scope) have the same
count, and a tree made only of such metrics counts 0. -/
theorem DataPointCount_ignores (h : Heap) (md : Metrics) (d : otlpmetrics.MetricsData)
    (hd : h.load md.orig = some d) :
    (∃ h2, h.store md.orig (stripIgnorable d) = some h2
        ∧ md.DataPointCount h2 = md.DataPointCount h)
      ∧ (∀ (h2 : Heap) (md2 : Metrics) (d2 : otlpmetrics.MetricsData),
          h2.load md2.orig = some d2 → stripIgnorable d2 = stripIgnorable d →
          md2.DataPointCount h2 = md.DataPointCount h)
      ∧ ((∀ rm ∈ d.ResourceMetrics, ∀ ilm ∈ rm.ScopeMetrics, ∀ m ∈ ilm.Metrics,
            ignorable m = true) → md.DataPointCount h = some 0) := by
  refine ⟨?_, ?_, ?_⟩
  · obtain ⟨h2, hs⟩ := Heap.store_some_of_load h md.orig d (stripIgnorable d) hd
    refine ⟨h2, hs, ?_⟩
    rw [DataPointCount_load h2 md _ (Heap.load_store_same h h2 _ _ hs),
      DataPointCount_load h md d hd, points_stripIgnorable]
  · intro h2 md2 d2 hd2 hst
    rw [DataPointCount_load h2 md2 d2 hd2, DataPointCount_load h md d hd,
      ← points_stripIgnorable d2, hst, points_stripIgnorable]
  · intro hall
    rw [DataPointCount_load h md d hd, points_zero_of_all_ignorable d hall]

/-- Witness of C3 on the tree of `TestDataPointCountWithNilDataPoints`, made only of metrics
without data points: its count is 0. -/
theorem DataPointCount_ignores_witness :
    Metrics.DataPointCount { cells := [testNilDataPointsTree] } { orig := some 0 } = some 0 :=
  (DataPointCount_ignores { cells := [testNilDataPointsTree] } { orig := some 0 }
    testNilDataPointsTree rfl).2.2 (by decide)

/-- C4: the counting walks never fail.  For every Metrics value whose handle points to a cell
(as `NewMetrics` and the decoder build it) `MetricCount()` and `DataPointCount()` return a
number: `Slice.At` outside `[0, Len())` and an accessor of the wrong variant are `none` and would
propagate, so neither is reached.  Each gap contributes 0: an empty resource list, a resource
with no scopes, a scope with no metrics, a None-tagged metric, and a metric whose tagged payload
is absent. -/
theorem counting_walks_never_fail (h : Heap) (md : Metrics) (d : otlpmetrics.MetricsData)
    (hd : h.load md.orig = some d) :
    (md.MetricCount h).isSome = true ∧ (md.DataPointCount h).isSome = true
      ∧ (d.ResourceMetrics = [] → md.MetricCount h = some 0 ∧ md.DataPointCount h = some 0)
      ∧ ((NewMetrics h).2.MetricCount (NewMetrics h).1 = some 0
          ∧ (NewMetrics h).2.DataPointCount (NewMetrics h).1 = some 0)
      ∧ (∀ s : Nat, Metrics.MetricCount.scopes [] s = some s
          ∧ Metrics.DataPointCount.scopes [] s = some s)
      ∧ (∀ (ilm : otlpmetrics.ScopeMetrics) (s : Nat), ilm.Metrics = [] →
          Metrics.MetricCount.scopes [ilm] s = some s
          ∧ Metrics.DataPointCount.metrics ilm.Metrics s = some s)
      ∧ (∀ (m : otlpmetrics.Metric) (s : Nat), Metric.DataType m = MetricDataTypeNone →
          Metrics.DataPointCount.metric m s = some s)
      ∧ (∀ (m : otlpmetrics.Metric) (s : Nat), payloadAbsent m = true →
          Metrics.DataPointCount.metric m s = some s) := by
  refine ⟨?_, ?_, ?_, ⟨?_, ?_⟩, ?_, ?_, ?_, ?_⟩
  · rw [MetricCount_load h md d hd]; rfl
  · rw [DataPointCount_load h md d hd]; rfl
  · intro he
    rw [MetricCount_load h md d hd, DataPointCount_load h md d hd, he]
    exact ⟨rfl, rfl⟩
  · rw [MetricCount_load _ _ {} (NewMetrics_load h)]; rfl
  · rw [DataPointCount_load _ _ {} (NewMetrics_load h)]; rfl
  · intro s
    exact ⟨rfl, rfl⟩
  · intro ilm s he
    rw [MetricCount_scopes_eq, he]
    exact ⟨by simp [he], rfl⟩
  · intro m s hm
    rw [DataPointCount_metric_eq, dataPointsOf_of_ignorable m (by simp [ignorable, hm])]
    rfl
  · intro m s hm
    obtain ⟨n, de, u, data⟩ := m
    cases data with
    | unset => simp [payloadAbsent] at hm
    | Metric_Gauge p => cases p <;> first | rfl | simp [payloadAbsent] at hm
    | Metric_Sum p => cases p <;> first | rfl | simp [payloadAbsent] at hm
    | Metric_Histogram p => cases p <;> first | rfl | simp [payloadAbsent] at hm
    | Metric_ExponentialHistogram p => cases p <;> first | rfl | simp [payloadAbsent] at hm
    | Metric_Summary p => cases p <;> first | rfl | simp [payloadAbsent] at hm

/-- Witness of C4 on the tree of `generateMetricsEmptyMetrics` (one metric with `Data` unset):
both walks return. -/
theorem counting_walks_never_fail_witness :
    (Metrics.MetricCount gapHeap { orig := some 2 }).isSome = true
      ∧ (Metrics.DataPointCount gapHeap { orig := some 2 }).isSome = true :=
  ⟨(counting_walks_never_fail gapHeap { orig := some 2 } generateMetricsEmptyMetrics rfl).1,
   (counting_walks_never_fail gapHeap { orig := some 2 } generateMetricsEmptyMetrics rfl).2.1⟩

/-- C5: for every Metric `m`, whatever payload it held, and every tag `ty` among Gauge, Sum,
Histogram, ExponentialHistogram and Summary: after `m.SetDataType(ty)`, `m.DataType() == ty`, the
accessor of variant `ty` returns a fresh zero-valued payload, its data-point sequence has length
0 (also when `ty` is the previous tag), and the metric contributes 0 to `DataPointCount()`. -/
theorem SetDataType_fresh (m : otlpmetrics.Metric) (ty : MetricDataType)
    (hty : ty = MetricDataTypeGauge ∨ ty = MetricDataTypeSum ∨ ty = MetricDataTypeHistogram
      ∨ ty = MetricDataTypeExponentialHistogram ∨ ty = MetricDataTypeSummary) :
    Metric.DataType (Metric.SetDataType m ty) = ty
      ∧ (ty = MetricDataTypeGauge →
          Metric.Gauge (Metric.SetDataType m ty) = some { orig := some {} })
      ∧ (ty = MetricDataTypeSum →
          Metric.Sum (Metric.SetDataType m ty) = some { orig := some {} })
      ∧ (ty = MetricDataTypeHistogram →
          Metric.Histogram (Metric.SetDataType m ty) = some { orig := some {} })
      ∧ (ty = MetricDataTypeExponentialHistogram →
          Metric.ExponentialHistogram (Metric.SetDataType m ty) = some { orig := some {} })
      ∧ (ty = MetricDataTypeSummary →
          Metric.Summary (Metric.SetDataType m ty) = some { orig := some {} })
      ∧ dataPointsOf (Metric.SetDataType m ty) = 0
      ∧ ∀ s : Nat, Metrics.DataPointCount.metric (Metric.SetDataType m ty) s = some s := by
  rcases hty with h | h | h | h | h <;> subst h <;>
    refine ⟨rfl, ?_, ?_, ?_, ?_, ?_, rfl, fun s => rfl⟩ <;> intro h <;>
    first
      | rfl
      | (exact absurd h (by decide))

/-- Witness of C5 on scenario C of the spec: `SetDataType(Sum)` on the gauge of scenario B, which
holds two data points; the count of the tree drops from 2 to 0. -/
theorem SetDataType_fresh_witness :
    Metric.DataType (Metric.SetDataType generateTestProtoGaugeMetric MetricDataTypeSum)
        = MetricDataTypeSum
      ∧ dataPointsOf (Metric.SetDataType generateTestProtoGaugeMetric MetricDataTypeSum) = 0
      ∧ Metrics.DataPointCount twoCellHeap { orig := some 0 } = some 2
      ∧ (Metrics.SetDataTypeAt twoCellHeap { orig := some 0 } 0 0 0 MetricDataTypeSum).bind
          (fun h1 => Metrics.DataPointCount h1 { orig := some 0 }) = some 0 :=
  ⟨(SetDataType_fresh generateTestProtoGaugeMetric MetricDataTypeSum (by decide)).1,
   (SetDataType_fresh generateTestProtoGaugeMetric MetricDataTypeSum
      (by decide)).2.2.2.2.2.2.1, rfl, rfl⟩

/-- C6, the code at the failing input: `SetDataType(MetricDataTypeNone)` on the gauge of
scenario B leaves the metric as it was; its tag is still Gauge and it still contributes its two
data points to `DataPointCount()`.  The same holds of every metric. -/
theorem SetDataType_None_keeps_payload :
    Metric.SetDataType generateTestProtoGaugeMetric MetricDataTypeNone
        = generateTestProtoGaugeMetric
      ∧ Metric.DataType (Metric.SetDataType generateTestProtoGaugeMetric MetricDataTypeNone)
        = MetricDataTypeGauge
      ∧ Metrics.DataPointCount.metric
          (Metric.SetDataType generateTestProtoGaugeMetric MetricDataTypeNone) 0 = some 2
      ∧ ∀ m : otlpmetrics.Metric, Metric.SetDataType m MetricDataTypeNone = m :=
  ⟨rfl, rfl, rfl, fun _ => rfl⟩

/-- C7: for every Metric `m` and every payload accessor, the accessor returns a payload view
exactly when its variant equals `m.DataType()`; in every other case, `m.DataType() == None`
included, it fails. -/
theorem accessor_iff_DataType (m : otlpmetrics.Metric) :
    ((Metric.Gauge m).isSome = true ↔ Metric.DataType m = MetricDataTypeGauge)
      ∧ ((Metric.Sum m).isSome = true ↔ Metric.DataType m = MetricDataTypeSum)
      ∧ ((Metric.Histogram m).isSome = true ↔ Metric.DataType m = MetricDataTypeHistogram)
      ∧ ((Metric.ExponentialHistogram m).isSome = true
          ↔ Metric.DataType m = MetricDataTypeExponentialHistogram)
      ∧ ((Metric.Summary m).isSome = true ↔ Metric.DataType m = MetricDataTypeSummary)
      ∧ ((Metric.Gauge m = none ↔ Metric.DataType m ≠ MetricDataTypeGauge)
        ∧ (Metric.Sum m = none ↔ Metric.DataType m ≠ MetricDataTypeSum)
        ∧ (Metric.Histogram m = none ↔ Metric.DataType m ≠ MetricDataTypeHistogram)
        ∧ (Metric.ExponentialHistogram m = none
            ↔ Metric.DataType m ≠ MetricDataTypeExponentialHistogram)
        ∧ (Metric.Summary m = none ↔ Metric.DataType m ≠ MetricDataTypeSummary)) := by
  obtain ⟨n, de, u, data⟩ := m
  cases data <;>
    simp [Metric.Gauge, Metric.Sum, Metric.Histogram, Metric.ExponentialHistogram,
      Metric.Summary, Metric.DataType, MetricDataTypeNone, MetricDataTypeGauge,
      MetricDataTypeSum, MetricDataTypeHistogram, MetricDataTypeExponentialHistogram,
      MetricDataTypeSummary]

/-- C8: for every pair of Metrics values `src` and `dest` with distinct cells (`dest` with
arbitrary prior content): after `src.MoveTo(dest)`, `src` is equal to a freshly constructed
`NewMetrics()` (no resources), and the cell of `dest` holds what the cell of `src` held before
the call, so its resource sequence is that of `src`, in the same order, and none of the prior
content of `dest` remains. -/
theorem MoveTo_distinct (h : Heap) (md dest : Metrics) (d dd : otlpmetrics.MetricsData)
    (hd : h.load md.orig = some d) (hdd : h.load dest.orig = some dd)
    (hne : md.orig ≠ dest.orig) :
    ∃ h1, md.MoveTo h dest = some h1
      ∧ h1.load md.orig = (NewMetrics h1).1.load (NewMetrics h1).2.orig
      ∧ md.ResourceMetrics h1 = some []
      ∧ h1.load dest.orig = some d
      ∧ dest.ResourceMetrics h1 = md.ResourceMetrics h := by
  obtain ⟨h0, hs0⟩ := Heap.store_some_of_load h dest.orig dd d hdd
  have hmd0 : h0.load md.orig = some d := by
    rw [Heap.load_store_other h h0 dest.orig md.orig d hs0 hne, hd]
  obtain ⟨h1, hs1⟩ := Heap.store_some_of_load h0 md.orig d {} hmd0
  have hsrc : h1.load md.orig = some {} := Heap.load_store_same h0 h1 _ _ hs1
  have hdst : h1.load dest.orig = some d := by
    rw [Heap.load_store_other h0 h1 md.orig dest.orig {} hs1 (Ne.symm hne),
      Heap.load_store_same h h0 _ _ hs0]
  refine ⟨h1, ?_, ?_, ?_, hdst, ?_⟩
  · simp [Metrics.MoveTo, hd, hs0, hs1]
  · rw [hsrc, NewMetrics_load]
  · simp [Metrics.ResourceMetrics, hsrc]
  · simp [Metrics.ResourceMetrics, hdst, hd]

/-- Witness of C8: moving scenario B (address 0) onto the tree of `TestMetricCount`
(address 1). -/
theorem MoveTo_distinct_witness :
    ∃ h1, Metrics.MoveTo twoCellHeap { orig := some 0 } { orig := some 1 } = some h1
      ∧ h1.load (some 0) = (NewMetrics h1).1.load (NewMetrics h1).2.orig
      ∧ Metrics.ResourceMetrics h1 { orig := some 0 } = some []
      ∧ h1.load (some 1) = some scenarioB
      ∧ Metrics.ResourceMetrics h1 { orig := some 1 }
        = Metrics.ResourceMetrics twoCellHeap { orig := some 0 } :=
  MoveTo_distinct twoCellHeap { orig := some 0 } { orig := some 1 } scenarioB
    testMetricCountTree rfl rfl (by decide)

theorem Clone_eq (h : Heap) (md : Metrics) (d : otlpmetrics.MetricsData)
    (hd : h.load md.orig = some d) :
    ∃ h1, md.Clone h = some (h1, (NewMetrics h).2)
      ∧ (NewMetrics h).1.store (NewMetrics h).2.orig d = some h1
      ∧ (NewMetrics h).2.orig ≠ md.orig
      ∧ h.load (NewMetrics h).2.orig = none
      ∧ h1.load (NewMetrics h).2.orig = some d
      ∧ h1.load md.orig = some d := by
  have hd1 : (NewMetrics h).1.load md.orig = some d := Heap.load_alloc_old h {} d md.orig hd
  have hnew : (NewMetrics h).1.load (NewMetrics h).2.orig = some {} := NewMetrics_load h
  have hfresh : h.load (NewMetrics h).2.orig = none := Heap.load_fresh h
  have hne : (NewMetrics h).2.orig ≠ md.orig := by
    intro e
    rw [e, hd] at hfresh
    cases hfresh
  obtain ⟨h1, hs⟩ := Heap.store_some_of_load (NewMetrics h).1 (NewMetrics h).2.orig {} d hnew
  refine ⟨h1, ?_, hs, hne, hfresh, Heap.load_store_same _ _ _ _ hs, ?_⟩
  · have hs2 : (NewMetrics h).1.store (NewMetrics h).2.orig
        { ({} : otlpmetrics.MetricsData) with ResourceMetrics := d.ResourceMetrics }
        = some h1 := hs
    simp [Metrics.Clone, Metrics.ResourceMetrics, ResourceMetricsSlice.CopyTo, hd1, hnew, hs2]
  · rw [Heap.load_store_other _ _ _ _ _ hs (Ne.symm hne), hd1]

/-- C9: for every Metrics value `md` whose handle points to a cell, `md.Clone()` returns a value
whose cell is equal to that of `md` (same resources, scopes, metrics, payload variants, data
points and attributes, in the same order), `md` itself is as before, and `MetricCount()` and
`DataPointCount()` of the clone equal those of `md`. -/
theorem Clone_deep_equal (h : Heap) (md : Metrics) (d : otlpmetrics.MetricsData)
    (hd : h.load md.orig = some d) :
    ∃ h1 c, md.Clone h = some (h1, c)
      ∧ h1.load c.orig = some d
      ∧ h1.load md.orig = some d
      ∧ c.MetricCount h1 = md.MetricCount h
      ∧ c.DataPointCount h1 = md.DataPointCount h
      ∧ md.MetricCount h1 = md.MetricCount h
      ∧ md.DataPointCount h1 = md.DataPointCount h := by
  obtain ⟨h1, hc, _, _, _, hcl, hmd⟩ := Clone_eq h md d hd
  refine ⟨h1, (NewMetrics h).2, hc, hcl, hmd, ?_, ?_, ?_, ?_⟩
  · rw [MetricCount_load h1 _ d hcl, MetricCount_load h md d hd]
  · rw [DataPointCount_load h1 _ d hcl, DataPointCount_load h md d hd]
  · rw [MetricCount_load h1 _ d hmd, MetricCount_load h md d hd]
  · rw [DataPointCount_load h1 _ d hmd, DataPointCount_load h md d hd]

/-- Witness of C9: cloning scenario B out of a two-cell heap. -/
theorem Clone_deep_equal_witness :
    ∃ h1 c, Metrics.Clone twoCellHeap { orig := some 0 } = some (h1, c)
      ∧ h1.load c.orig = some scenarioB
      ∧ h1.load (some 0) = some scenarioB
      ∧ c.MetricCount h1 = Metrics.MetricCount twoCellHeap { orig := some 0 }
      ∧ c.DataPointCount h1 = Metrics.DataPointCount twoCellHeap { orig := some 0 }
      ∧ Metrics.MetricCount h1 { orig := some 0 }
        = Metrics.MetricCount twoCellHeap { orig := some 0 }
      ∧ Metrics.DataPointCount h1 { orig := some 0 }
        = Metrics.DataPointCount twoCellHeap { orig := some 0 } :=
  Clone_deep_equal twoCellHeap { orig := some 0 } scenarioB rfl

theorem SetDataTypeAt_eq_store (h h2 : Heap) (md : Metrics) (i j k : Nat) (ty : MetricDataType)
    (hs : md.SetDataTypeAt h i j k ty = some h2) : ∃ v, h.store md.orig v = some h2 := by
  unfold Metrics.SetDataTypeAt at hs
  split at hs
  · cases hs
  · split at hs
    · cases hs
    · exact ⟨_, hs⟩

/-- C10: `Clone` shares no storage with its source.  For every Metrics value `md` whose handle
points to a cell and `c = md.Clone()`: the cell of `c` is newly allocated, so it is not the cell
of `md`; every write through `c` (any new content of its cell, which is what appending a
resource, scope, metric or data point, `SetDataType` or changing an attribute through a view of
`c` amounts to) leaves the cell of `md` unchanged, and every write through `md` leaves the cell
of `c` unchanged. -/
theorem Clone_no_sharing (h : Heap) (md : Metrics) (d : otlpmetrics.MetricsData)
    (hd : h.load md.orig = some d) :
    ∃ h1 c, md.Clone h = some (h1, c)
      ∧ c.orig ≠ md.orig
      ∧ h.load c.orig = none
      ∧ (∀ (v : otlpmetrics.MetricsData) (h2 : Heap), h1.store c.orig v = some h2 →
          h2.load md.orig = some d ∧ h2.load c.orig = some v)
      ∧ (∀ (v : otlpmetrics.MetricsData) (h2 : Heap), h1.store md.orig v = some h2 →
          h2.load c.orig = some d ∧ h2.load md.orig = some v)
      ∧ (∀ (i j k : Nat) (ty : MetricDataType) (h2 : Heap),
          c.SetDataTypeAt h1 i j k ty = some h2 → h2.load md.orig = some d)
      ∧ (∀ (i j k : Nat) (ty : MetricDataType) (h2 : Heap),
          md.SetDataTypeAt h1 i j k ty = some h2 → h2.load c.orig = some d) := by
  obtain ⟨h1, hc, _, hne, hfresh, hcl, hmd⟩ := Clone_eq h md d hd
  refine ⟨h1, (NewMetrics h).2, hc, hne, hfresh, ?_, ?_, ?_, ?_⟩
  · intro v h2 hs
    exact ⟨by rw [Heap.load_store_other _ _ _ _ _ hs (Ne.symm hne), hmd],
      Heap.load_store_same _ _ _ _ hs⟩
  · intro v h2 hs
    exact ⟨by rw [Heap.load_store_other _ _ _ _ _ hs hne, hcl],
      Heap.load_store_same _ _ _ _ hs⟩
  · intro i j k ty h2 hs
    obtain ⟨v, hv⟩ := SetDataTypeAt_eq_store _ _ _ _ _ _ _ hs
    rw [Heap.load_store_other _ _ _ _ _ hv (Ne.symm hne), hmd]
  · intro i j k ty h2 hs
    obtain ⟨v, hv⟩ := SetDataTypeAt_eq_store _ _ _ _ _ _ _ hs
    rw [Heap.load_store_other _ _ _ _ _ hv hne, hcl]

/-- Witness of C10: the clone of scenario B out of a two-cell heap lives in a cell of its
own. -/
theorem Clone_no_sharing_witness :
    ∃ h1 c, Metrics.Clone twoCellHeap { orig := some 0 } = some (h1, c)
      ∧ c.orig ≠ some 0
      ∧ twoCellHeap.load c.orig = none :=
  match Clone_no_sharing twoCellHeap { orig := some 0 } scenarioB rfl with
  | ⟨h1, c, hc, hne, hfresh, _⟩ => ⟨h1, c, hc, hne, hfresh⟩

/-- C12: for every Metric `m` and every destination Metric `dest` of the same metric sequence
(`m` at index `k`, `dest` at index `k1`): after `m.CopyTo(dest)` the element at `k1` is equal to
`m`, nothing of the prior content of `dest` remains, the set/unset state of the sum of each
histogram data point is that of `m`, `m` itself is unchanged, and so is every other element. -/
theorem CopyTo_deep_equal (ms : List otlpmetrics.Metric) (k k1 : Nat)
    (m dest : otlpmetrics.Metric)
    (hk : Slice.At ms k = some m) (hk1 : Slice.At ms k1 = some dest) :
    Metric.CopyTo m dest = m
      ∧ histogramSumStates (Metric.CopyTo m dest) = histogramSumStates m
      ∧ ∃ r, MetricSlice.CopyAt ms k k1 = some r
          ∧ Slice.At r k1 = some m
          ∧ Slice.At r k = some m
          ∧ Slice.Len r = Slice.Len ms
          ∧ ∀ n : Nat, n ≠ k1 → Slice.At r n = Slice.At ms n := by
  have hlt : k1 < ms.length := by
    simp only [Slice.At] at hk1
    exact (List.getElem?_eq_some_iff.mp hk1).1
  refine ⟨rfl, rfl, ms.set k1 m, ?_, ?_, ?_, ?_, ?_⟩
  · simp [MetricSlice.CopyAt, Slice.update, hk, hk1, Metric_CopyTo_eq]
  · simp [Slice.At, hlt]
  · by_cases hkk : k1 = k
    · subst hkk
      simp [Slice.At, hlt]
    · simpa [Slice.At, List.getElem?_set_ne hkk] using hk
  · simp [Slice.Len]
  · intro n hn
    simp [Slice.At, List.getElem?_set_ne (Ne.symm hn)]

/-- Witness of C12 on `TestHistogramWithNilSum` and `TestHistogramWithValidSum`: the histogram
is copied onto the empty metric appended after it, with the sum unset and with the sum set. -/
theorem CopyTo_deep_equal_witness :
    (Metric.CopyTo histoNilSum {} = histoNilSum
        ∧ histogramSumStates (Metric.CopyTo histoNilSum {}) = [false])
      ∧ (Metric.CopyTo histoValidSum {} = histoValidSum
        ∧ histogramSumStates (Metric.CopyTo histoValidSum {}) = [true]) :=
  ⟨⟨(CopyTo_deep_equal [histoNilSum, {}] 0 1 histoNilSum {} rfl rfl).1,
    (CopyTo_deep_equal [histoNilSum, {}] 0 1 histoNilSum {} rfl rfl).2.1⟩,
   ⟨(CopyTo_deep_equal [histoValidSum, {}] 0 1 histoValidSum {} rfl rfl).1,
    (CopyTo_deep_equal [histoValidSum, {}] 0 1 histoValidSum {} rfl rfl).2.1⟩⟩

/-- C13: `NewMetricDataPointFlags` called with no flags returns a value equal to the sentinel
`MetricDataPointFlagsNone`, for which `HasFlag(MetricDataPointFlagNoRecordedValue)` is false;
`HasFlag(f)` is false on `MetricDataPointFlagsNone` for every flag `f`. -/
theorem NewMetricDataPointFlags_none :
    NewMetricDataPointFlags [] = MetricDataPointFlagsNone
      ∧ (NewMetricDataPointFlags []).HasFlag MetricDataPointFlagNoRecordedValue = false
      ∧ ∀ f : MetricDataPointFlag, MetricDataPointFlagsNone.HasFlag f = false := by
  refine ⟨rfl, rfl, ?_⟩
  intro f
  simp [MetricDataPointFlags.HasFlag, MetricDataPointFlagsNone,
    otlpmetrics.DataPointFlags_FLAG_NONE]

/-- C14: `HasFlag` tests membership in the combined value: for every list `fs` of flags and
every flag `f`, `NewMetricDataPointFlags(fs...).HasFlag(f)` is true if and only if `f` shares at
least one set bit with the bitwise OR of `fs`, that is with one of the flags of `fs`;
`NewMetricDataPointFlags(MetricDataPointFlagNoRecordedValue)` has
`HasFlag(MetricDataPointFlagNoRecordedValue)` true and is not `MetricDataPointFlagsNone`. -/
theorem HasFlag_iff_sharesBit (fs : List MetricDataPointFlag) (f : MetricDataPointFlag) :
    ((NewMetricDataPointFlags fs).HasFlag f = true ↔ sharesBit f fs)
      ∧ ((NewMetricDataPointFlags fs).HasFlag f = true
          ↔ (fs.foldl (fun acc g => acc ||| g.val) 0) &&& f.val ≠ 0)
      ∧ (NewMetricDataPointFlags [MetricDataPointFlagNoRecordedValue]).HasFlag
          MetricDataPointFlagNoRecordedValue = true
      ∧ NewMetricDataPointFlags [MetricDataPointFlagNoRecordedValue]
          ≠ MetricDataPointFlagsNone := by
  refine ⟨?_, ?_, by decide, by decide⟩
  · rw [HasFlag_iff]
    unfold sharesBit NewMetricDataPointFlags
    constructor
    · rintro ⟨i, hd, hf⟩
      rcases (foldl_or_testBit fs { val := 0 } i).mp hd with h0 | hg
      · simp at h0
      · exact ⟨i, hf, hg⟩
    · rintro ⟨i, hf, hg⟩
      exact ⟨i, (foldl_or_testBit fs { val := 0 } i).mpr (Or.inr hg), hf⟩
  · have hval : ∀ (l : List MetricDataPointFlag) (acc : MetricDataPointFlags),
        (l.foldl (fun flag g => ({ val := flag.val ||| g.val } : MetricDataPointFlags)) acc).val
          = l.foldl (fun a g => a ||| g.val) acc.val := by
      intro l
      induction l with
      | nil => intro acc; rfl
      | cons g l ih => intro acc; simp [List.foldl_cons, ih]
    unfold MetricDataPointFlags.HasFlag NewMetricDataPointFlags
    rw [hval]
    simp

/-- C15: the string rendering of a flags value is the canonical wire-format enumerator name:
`MetricDataPointFlagsNone.String()` is "FLAG_NONE" and
`NewMetricDataPointFlags(MetricDataPointFlagNoRecordedValue).String()` is
"FLAG_NO_RECORDED_VALUE". -/
theorem MetricDataPointFlags_String :
    MetricDataPointFlagsNone.String = "FLAG_NONE"
      ∧ (NewMetricDataPointFlags [MetricDataPointFlagNoRecordedValue]).String
          = "FLAG_NO_RECORDED_VALUE"
      ∧ (NewMetricDataPointFlags []).String = "FLAG_NONE" :=
  ⟨rfl, rfl, rfl⟩

/-- C16: `MetricDataType.String()` returns "None", "Gauge", "Sum", "Histogram",
"ExponentialHistogram" and "Summary" for the six named tags, these renderings are pairwise
distinct (the rendering is injective on the six tags), and it returns the empty string for
every other value, such as `MetricDataTypeSummary + 1`. -/
theorem MetricDataType_String (mdt : MetricDataType)
    (hother : mdt < MetricDataTypeNone ∨ MetricDataTypeSummary < mdt) :
    MetricDataType.String mdt = ""
      ∧ MetricDataType.String MetricDataTypeNone = "None"
      ∧ MetricDataType.String MetricDataTypeGauge = "Gauge"
      ∧ MetricDataType.String MetricDataTypeSum = "Sum"
      ∧ MetricDataType.String MetricDataTypeHistogram = "Histogram"
      ∧ MetricDataType.String MetricDataTypeExponentialHistogram = "ExponentialHistogram"
      ∧ MetricDataType.String MetricDataTypeSummary = "Summary"
      ∧ MetricDataType.String (MetricDataTypeSummary + 1) = ""
      ∧ (∀ a b : MetricDataType, MetricDataTypeNone ≤ a → a ≤ MetricDataTypeSummary →
          MetricDataTypeNone ≤ b → b ≤ MetricDataTypeSummary →
          MetricDataType.String a = MetricDataType.String b → a = b) := by
  refine ⟨?_, by decide, by decide, by decide, by decide, by decide, by decide, by decide, ?_⟩
  · obtain ⟨h0, h1, h2, h3, h4, h5⟩ := int_outside_0_5 mdt hother
    simp [MetricDataType.String, MetricDataTypeNone, MetricDataTypeGauge, MetricDataTypeSum,
      MetricDataTypeHistogram, MetricDataTypeExponentialHistogram, MetricDataTypeSummary,
      h0, h1, h2, h3, h4, h5]
  · intro a b ha0 ha5 hb0 hb5 hab
    have hsa := int_within_0_5 a ha0 ha5
    have hsb := int_within_0_5 b hb0 hb5
    rcases hsa with h | h | h | h | h | h <;> rcases hsb with g | g | g | g | g | g <;>
      subst h <;> subst g <;> first | rfl | (exact absurd hab (by decide))

/-- Witness of C16 at `MetricDataTypeSummary + 1` and at a negative value. -/
theorem MetricDataType_String_witness :
    MetricDataType.String (MetricDataTypeSummary + 1) = ""
      ∧ MetricDataType.String (-1) = "" :=
  ⟨(MetricDataType_String (MetricDataTypeSummary + 1) (by decide)).1,
   (MetricDataType_String (-1) (by decide)).1⟩

/-- C17: `MetricValueType.String()` returns "None", "Int" and "Double" for
`MetricValueTypeNone`, `MetricValueTypeInt` and `MetricValueTypeDouble`, and the empty string
for every other value, such as `MetricValueTypeDouble + 1`. -/
theorem MetricValueType_String (mdt : MetricValueType)
    (hother : mdt < MetricValueTypeNone ∨ MetricValueTypeDouble < mdt) :
    MetricValueType.String mdt = ""
      ∧ MetricValueType.String MetricValueTypeNone = "None"
      ∧ MetricValueType.String MetricValueTypeInt = "Int"
      ∧ MetricValueType.String MetricValueTypeDouble = "Double"
      ∧ MetricValueType.String (MetricValueTypeDouble + 1) = "" := by
  refine ⟨?_, by decide, by decide, by decide, by decide⟩
  obtain ⟨h0, h1, h2⟩ := int_outside_0_2 mdt hother
  simp [MetricValueType.String, MetricValueTypeNone, MetricValueTypeInt, MetricValueTypeDouble,
    h0, h1, h2]

/-- Witness of C17 at `MetricValueTypeDouble + 1`. -/
theorem MetricValueType_String_witness :
    MetricValueType.String (MetricValueTypeDouble + 1) = "" :=
  (MetricValueType_String (MetricValueTypeDouble + 1) (by decide)).1

/-! ## Mutation through nested views -/

theorem sum_map_set {α : Type} (f : α → Nat) :
    ∀ (l : List α) (i : Nat) (a b : α), l[i]? = some a →
      ((l.set i b).map f).sum + f a = (l.map f).sum + f b := by
  intro l
  induction l with
  | nil => intro i a b h; simp at h
  | cons x l ih =>
    intro i a b h
    cases i with
    | zero =>
      simp only [List.getElem?_cons_zero, Option.some.injEq] at h
      subst h
      simp only [List.set_cons_zero, List.map_cons, List.sum_cons]
      omega
    | succ i =>
      simp only [List.getElem?_cons_succ] at h
      have := ih i a b h
      simp only [List.set_cons_succ, List.map_cons, List.sum_cons]
      omega

theorem Slice_update_some {α : Type} (es : List α) (i : Nat) (f : α → Option α) (e e1 : α)
    (he : Slice.At es i = some e) (hf : f e = some e1) :
    Slice.update es i f = some (es.set i e1) := by
  simp [Slice.update, he, hf]

theorem updateResourceAt_some (h : Heap) (md : Metrics) (d : otlpmetrics.MetricsData) (i : Nat)
    (f : otlpmetrics.ResourceMetrics → Option otlpmetrics.ResourceMetrics)
    (rm rm1 : otlpmetrics.ResourceMetrics)
    (hd : h.load md.orig = some d) (hrm : Slice.At d.ResourceMetrics i = some rm)
    (hf : f rm = some rm1) :
    ∃ h2, md.updateResourceAt h i f = some h2
      ∧ h2.load md.orig = some { d with ResourceMetrics := d.ResourceMetrics.set i rm1 } := by
  obtain ⟨h2, hs⟩ := Heap.store_some_of_load h md.orig d
    { d with ResourceMetrics := d.ResourceMetrics.set i rm1 } hd
  refine ⟨h2, ?_, Heap.load_store_same h h2 _ _ hs⟩
  simp [Metrics.updateResourceAt, hd, Slice_update_some _ _ _ _ _ hrm hf, hs]

theorem updateScopeAt_some (h : Heap) (md : Metrics) (d : otlpmetrics.MetricsData) (i j : Nat)
    (f : otlpmetrics.ScopeMetrics → Option otlpmetrics.ScopeMetrics)
    (rm : otlpmetrics.ResourceMetrics) (ilm ilm1 : otlpmetrics.ScopeMetrics)
    (hd : h.load md.orig = some d) (hrm : Slice.At d.ResourceMetrics i = some rm)
    (hilm : Slice.At rm.ScopeMetrics j = some ilm) (hf : f ilm = some ilm1) :
    ∃ h2, md.updateScopeAt h i j f = some h2
      ∧ h2.load md.orig = some { d with ResourceMetrics :=
          (d.ResourceMetrics.set i { rm with ScopeMetrics := rm.ScopeMetrics.set j ilm1 }) } := by
  unfold Metrics.updateScopeAt
  apply updateResourceAt_some h md d i _ rm _ hd hrm
  simp [Slice_update_some _ _ _ _ _ hilm hf]

theorem updateMetricAt_some (h : Heap) (md : Metrics) (d : otlpmetrics.MetricsData)
    (i j k : Nat) (f : otlpmetrics.Metric → Option otlpmetrics.Metric)
    (rm : otlpmetrics.ResourceMetrics) (ilm : otlpmetrics.ScopeMetrics)
    (m m1 : otlpmetrics.Metric)
    (hd : h.load md.orig = some d) (hrm : Slice.At d.ResourceMetrics i = some rm)
    (hilm : Slice.At rm.ScopeMetrics j = some ilm) (hm : Slice.At ilm.Metrics k = some m)
    (hf : f m = some m1) :
    ∃ h2, md.updateMetricAt h i j k f = some h2
      ∧ h2.load md.orig = some { d with ResourceMetrics :=
          (d.ResourceMetrics.set i { rm with ScopeMetrics :=
            (rm.ScopeMetrics.set j { ilm with Metrics := ilm.Metrics.set k m1 }) }) } := by
  unfold Metrics.updateMetricAt
  apply updateScopeAt_some h md d i j _ rm ilm _ hd hrm hilm
  simp [Slice_update_some _ _ _ _ _ hm hf]

theorem metrics_set_resource (rms : List otlpmetrics.ResourceMetrics) (i : Nat)
    (rm rm1 : otlpmetrics.ResourceMetrics) (hrm : Slice.At rms i = some rm) :
    ((rms.set i rm1).map metricsUnder).sum + metricsUnder rm
      = (rms.map metricsUnder).sum + metricsUnder rm1 :=
  sum_map_set metricsUnder rms i rm rm1 hrm

theorem points_set_resource (rms : List otlpmetrics.ResourceMetrics) (i : Nat)
    (rm rm1 : otlpmetrics.ResourceMetrics) (hrm : Slice.At rms i = some rm) :
    ((rms.set i rm1).map pointsUnder).sum + pointsUnder rm
      = (rms.map pointsUnder).sum + pointsUnder rm1 :=
  sum_map_set pointsUnder rms i rm rm1 hrm

theorem metrics_set_scope (rm : otlpmetrics.ResourceMetrics) (j : Nat)
    (ilm ilm1 : otlpmetrics.ScopeMetrics) (hilm : Slice.At rm.ScopeMetrics j = some ilm) :
    metricsUnder { rm with ScopeMetrics := rm.ScopeMetrics.set j ilm1 } + ilm.Metrics.length
      = metricsUnder rm + ilm1.Metrics.length :=
  sum_map_set (fun ilm => ilm.Metrics.length) rm.ScopeMetrics j ilm ilm1 hilm

theorem points_set_scope (rm : otlpmetrics.ResourceMetrics) (j : Nat)
    (ilm ilm1 : otlpmetrics.ScopeMetrics) (hilm : Slice.At rm.ScopeMetrics j = some ilm) :
    pointsUnder { rm with ScopeMetrics := rm.ScopeMetrics.set j ilm1 } + pointsInScope ilm
      = pointsUnder rm + pointsInScope ilm1 :=
  sum_map_set pointsInScope rm.ScopeMetrics j ilm ilm1 hilm

theorem points_set_metric (ilm : otlpmetrics.ScopeMetrics) (k : Nat)
    (m m1 : otlpmetrics.Metric) (hm : Slice.At ilm.Metrics k = some m) :
    pointsInScope { ilm with Metrics := ilm.Metrics.set k m1 } + dataPointsOf m
      = pointsInScope ilm + dataPointsOf m1 :=
  sum_map_set dataPointsOf ilm.Metrics k m m1 hm

theorem SetDataTypeAt_eq_updateMetricAt (h : Heap) (md : Metrics) (i j k : Nat)
    (ty : MetricDataType) :
    md.SetDataTypeAt h i j k ty
      = md.updateMetricAt h i j k (fun m => some (Metric.SetDataType m ty)) := rfl

theorem SetDataType_fields (m : otlpmetrics.Metric) (ty : MetricDataType) :
    (Metric.SetDataType m ty).Name = m.Name
      ∧ (Metric.SetDataType m ty).Description = m.Description
      ∧ (Metric.SetDataType m ty).Unit = m.Unit := by
  unfold Metric.SetDataType
  split_ifs <;> exact ⟨rfl, rfl, rfl⟩

theorem AppendEmptyDataPoint_some (m : otlpmetrics.Metric)
    (hty : Metric.DataType m ≠ MetricDataTypeNone) (hpres : payloadAbsent m = false) :
    ∃ m1, Metric.AppendEmptyDataPoint m = some m1
      ∧ dataPointsOf m1 = dataPointsOf m + 1
      ∧ Metric.DataType m1 = Metric.DataType m := by
  obtain ⟨n, de, u, data⟩ := m
  cases data with
  | unset => exact absurd rfl hty
  | Metric_Gauge p =>
    cases p with
    | none => simp [payloadAbsent] at hpres
    | some g => exact ⟨_, rfl, by simp [dataPointsOf, Gauge.DataPoints, Slice.AppendEmpty], rfl⟩
  | Metric_Sum p =>
    cases p with
    | none => simp [payloadAbsent] at hpres
    | some g => exact ⟨_, rfl, by simp [dataPointsOf, Sum.DataPoints, Slice.AppendEmpty], rfl⟩
  | Metric_Histogram p =>
    cases p with
    | none => simp [payloadAbsent] at hpres
    | some g =>
      exact ⟨_, rfl, by simp [dataPointsOf, Histogram.DataPoints, Slice.AppendEmpty], rfl⟩
  | Metric_ExponentialHistogram p =>
    cases p with
    | none => simp [payloadAbsent] at hpres
    | some g =>
      exact ⟨_, rfl,
        by simp [dataPointsOf, ExponentialHistogram.DataPoints, Slice.AppendEmpty], rfl⟩
  | Metric_Summary p =>
    cases p with
    | none => simp [payloadAbsent] at hpres
    | some g => exact ⟨_, rfl, by simp [dataPointsOf, Summary.DataPoints, Slice.AppendEmpty], rfl⟩

theorem Heap.store_length (h h1 : Heap) (p : Option Nat) (v : otlpmetrics.MetricsData)
    (hs : h.store p v = some h1) : h1.cells.length = h.cells.length := by
  cases p with
  | none => simp [Heap.store] at hs
  | some a =>
    simp only [Heap.store] at hs
    split at hs
    · cases hs
      simp
    · cases hs

/-- C21: `SetDataType` changes only the payload.  For every Metric `m`, at index `k` of the
metric sequence of a scope of a Metrics value, and every tag `ty`: after `m.SetDataType(ty)` the
name, description and unit of `m` are what they were, the call returns, and the cell of the
root holds the former tree with only the metric at `k` replaced, so that every other metric of
the same scope is unchanged. -/
theorem SetDataType_changes_only_payload (h : Heap) (md : Metrics)
    (d : otlpmetrics.MetricsData) (i j k : Nat) (ty : MetricDataType)
    (rm : otlpmetrics.ResourceMetrics) (ilm : otlpmetrics.ScopeMetrics) (m : otlpmetrics.Metric)
    (hd : h.load md.orig = some d) (hrm : Slice.At d.ResourceMetrics i = some rm)
    (hilm : Slice.At rm.ScopeMetrics j = some ilm) (hm : Slice.At ilm.Metrics k = some m) :
    (Metric.SetDataType m ty).Name = m.Name
      ∧ (Metric.SetDataType m ty).Description = m.Description
      ∧ (Metric.SetDataType m ty).Unit = m.Unit
      ∧ ∃ h2, md.SetDataTypeAt h i j k ty = some h2
          ∧ h2.load md.orig = some { d with ResourceMetrics :=
              (d.ResourceMetrics.set i { rm with ScopeMetrics :=
                (rm.ScopeMetrics.set j { ilm with Metrics :=
                  (ilm.Metrics.set k (Metric.SetDataType m ty)) }) }) }
          ∧ Slice.At (ilm.Metrics.set k (Metric.SetDataType m ty)) k
              = some (Metric.SetDataType m ty)
          ∧ Slice.Len (ilm.Metrics.set k (Metric.SetDataType m ty)) = Slice.Len ilm.Metrics
          ∧ ∀ n : Nat, n ≠ k →
              Slice.At (ilm.Metrics.set k (Metric.SetDataType m ty)) n
                = Slice.At ilm.Metrics n := by
  obtain ⟨hn, hde, hu⟩ := SetDataType_fields m ty
  refine ⟨hn, hde, hu, ?_⟩
  obtain ⟨h2, hup, hl⟩ := updateMetricAt_some h md d i j k
    (fun m => some (Metric.SetDataType m ty)) rm ilm m (Metric.SetDataType m ty)
    hd hrm hilm hm rfl
  have hk : k < ilm.Metrics.length := by
    simp only [Slice.At] at hm
    exact (List.getElem?_eq_some_iff.mp hm).1
  refine ⟨h2, ?_, hl, ?_, ?_, ?_⟩
  · rw [SetDataTypeAt_eq_updateMetricAt]
    exact hup
  · simp [Slice.At, hk]
  · simp [Slice.Len]
  · intro n hne
    simp [Slice.At, List.getElem?_set_ne (Ne.symm hne)]

/-- Witness of C21 on the final tree of `TestMetricAndDataPointCount`: `SetDataType(Summary)`
on the second metric of the third resource keeps the name and the first metric of the scope. -/
theorem SetDataType_changes_only_payload_witness :
    (Metric.SetDataType { Data := (otlpmetrics.isMetric_Data.Metric_Sum
        (some { DataPoints := [{}] })) } MetricDataTypeSummary).Name = ""
      ∧ ∃ h2, Metrics.SetDataTypeAt { cells := [testDataPointCountTree] } { orig := some 0 }
            2 0 1 MetricDataTypeSummary = some h2 :=
  match SetDataType_changes_only_payload { cells := [testDataPointCountTree] }
      { orig := some 0 } testDataPointCountTree 2 0 1 MetricDataTypeSummary _ _ _
      rfl rfl rfl rfl with
  | ⟨hn, _, _, h2, hs, _⟩ => ⟨hn, h2, hs⟩

/-- C22: mutation through a nested view writes through to the root.  For every Metrics value
`md`: appending an empty Resource leaves `md.MetricCount()` and `md.DataPointCount()` unchanged;
for every resource `i` of `md`, appending an empty Scope to it leaves both counts unchanged; and
for every scope `j` of every resource `i`, appending one empty Metric through the `Metrics()`
view of that scope increases `md.MetricCount()` by exactly 1 and leaves `md.DataPointCount()`
unchanged. -/
theorem AppendEmpty_counts (h : Heap) (md : Metrics) (d : otlpmetrics.MetricsData)
    (hd : h.load md.orig = some d) :
    ∃ n p, md.MetricCount h = some n ∧ md.DataPointCount h = some p
      ∧ (∃ h2, md.AppendEmptyResource h = some h2
          ∧ md.MetricCount h2 = some n ∧ md.DataPointCount h2 = some p)
      ∧ (∀ (i : Nat) (rm : otlpmetrics.ResourceMetrics),
          Slice.At d.ResourceMetrics i = some rm →
          ∃ h2, md.AppendEmptyScope h i = some h2
            ∧ md.MetricCount h2 = some n ∧ md.DataPointCount h2 = some p)
      ∧ (∀ (i j : Nat) (rm : otlpmetrics.ResourceMetrics) (ilm : otlpmetrics.ScopeMetrics),
          Slice.At d.ResourceMetrics i = some rm → Slice.At rm.ScopeMetrics j = some ilm →
          ∃ h2, md.AppendEmptyMetric h i j = some h2
            ∧ md.MetricCount h2 = some (n + 1) ∧ md.DataPointCount h2 = some p) := by
  refine ⟨_, _, MetricCount_load h md d hd, DataPointCount_load h md d hd, ?_, ?_, ?_⟩
  · obtain ⟨h2, hs⟩ := Heap.store_some_of_load h md.orig d
      { d with ResourceMetrics := Slice.AppendEmpty {} d.ResourceMetrics } hd
    have hl := Heap.load_store_same h h2 _ _ hs
    refine ⟨h2, by simp [Metrics.AppendEmptyResource, hd, hs], ?_, ?_⟩
    · rw [MetricCount_load h2 md _ hl]
      simp [Slice.AppendEmpty, metricsUnder]
    · rw [DataPointCount_load h2 md _ hl]
      simp [Slice.AppendEmpty, pointsUnder]
  · intro i rm hrm
    obtain ⟨h2, hup, hl⟩ := updateResourceAt_some h md d i
      (fun rm => some { rm with ScopeMetrics := Slice.AppendEmpty {} rm.ScopeMetrics }) rm
      { rm with ScopeMetrics := Slice.AppendEmpty {} rm.ScopeMetrics } hd hrm rfl
    refine ⟨h2, hup, ?_, ?_⟩
    · rw [MetricCount_load h2 md _ hl]
      have h1 := metrics_set_resource d.ResourceMetrics i rm
        { rm with ScopeMetrics := Slice.AppendEmpty {} rm.ScopeMetrics } hrm
      have h4 : metricsUnder { rm with ScopeMetrics := Slice.AppendEmpty {} rm.ScopeMetrics }
          = metricsUnder rm := by
        simp [metricsUnder, Slice.AppendEmpty]
      rw [h4] at h1
      dsimp only
      congr 1
      omega
    · rw [DataPointCount_load h2 md _ hl]
      have h1 := points_set_resource d.ResourceMetrics i rm
        { rm with ScopeMetrics := Slice.AppendEmpty {} rm.ScopeMetrics } hrm
      have h4 : pointsUnder { rm with ScopeMetrics := Slice.AppendEmpty {} rm.ScopeMetrics }
          = pointsUnder rm := by
        simp [pointsUnder, Slice.AppendEmpty, pointsInScope]
      rw [h4] at h1
      dsimp only
      congr 1
      omega
  · intro i j rm ilm hrm hilm
    obtain ⟨h2, hup, hl⟩ := updateScopeAt_some h md d i j
      (fun ilm => some { ilm with Metrics := Slice.AppendEmpty {} ilm.Metrics }) rm ilm
      { ilm with Metrics := Slice.AppendEmpty {} ilm.Metrics } hd hrm hilm rfl
    refine ⟨h2, hup, ?_, ?_⟩
    · rw [MetricCount_load h2 md _ hl]
      have h1 := metrics_set_resource d.ResourceMetrics i rm
        { rm with ScopeMetrics := (rm.ScopeMetrics.set j
            { ilm with Metrics := Slice.AppendEmpty {} ilm.Metrics }) } hrm
      have h3 := metrics_set_scope rm j ilm
        { ilm with Metrics := Slice.AppendEmpty {} ilm.Metrics } hilm
      simp only [Slice.AppendEmpty, List.length_append, List.length_singleton] at h1 h3 ⊢
      congr 1
      omega
    · rw [DataPointCount_load h2 md _ hl]
      have h1 := points_set_resource d.ResourceMetrics i rm
        { rm with ScopeMetrics := (rm.ScopeMetrics.set j
            { ilm with Metrics := Slice.AppendEmpty {} ilm.Metrics }) } hrm
      have h3 := points_set_scope rm j ilm
        { ilm with Metrics := Slice.AppendEmpty {} ilm.Metrics } hilm
      have h4 : pointsInScope { ilm with Metrics := Slice.AppendEmpty {} ilm.Metrics }
          = pointsInScope ilm := by
        simp [pointsInScope, Slice.AppendEmpty, dataPointsOf]
      rw [h4] at h3
      dsimp only
      congr 1
      omega

/-- Witness of C22 along the first steps of `TestMetricCount`: an empty Resource appended to a
new, empty Metrics value; an empty Scope appended to a resource that has none; an empty Metric
appended to a scope that has none; and one more metric in the final tree of the test. -/
theorem AppendEmpty_counts_witness :
    (∃ n p, Metrics.MetricCount { cells := [{}] } { orig := some 0 } = some n
        ∧ Metrics.DataPointCount { cells := [{}] } { orig := some 0 } = some p
        ∧ ∃ h2, Metrics.AppendEmptyResource { cells := [{}] } { orig := some 0 } = some h2
            ∧ Metrics.MetricCount h2 { orig := some 0 } = some n
            ∧ Metrics.DataPointCount h2 { orig := some 0 } = some p)
      ∧ (∃ n p, Metrics.MetricCount gapHeap { orig := some 0 } = some n
        ∧ Metrics.DataPointCount gapHeap { orig := some 0 } = some p
        ∧ ∃ h2, Metrics.AppendEmptyScope gapHeap { orig := some 0 } 0 = some h2
            ∧ Metrics.MetricCount h2 { orig := some 0 } = some n
            ∧ Metrics.DataPointCount h2 { orig := some 0 } = some p)
      ∧ (∃ n p, Metrics.MetricCount gapHeap { orig := some 1 } = some n
        ∧ Metrics.DataPointCount gapHeap { orig := some 1 } = some p
        ∧ ∃ h2, Metrics.AppendEmptyMetric gapHeap { orig := some 1 } 0 0 = some h2
            ∧ Metrics.MetricCount h2 { orig := some 1 } = some (n + 1)
            ∧ Metrics.DataPointCount h2 { orig := some 1 } = some p)
      ∧ (∃ n p, Metrics.MetricCount { cells := [testMetricCountTree] } { orig := some 0 }
          = some n
        ∧ Metrics.DataPointCount { cells := [testMetricCountTree] } { orig := some 0 } = some p
        ∧ ∃ h2, Metrics.AppendEmptyMetric { cells := [testMetricCountTree] } { orig := some 0 }
              1 0 = some h2
            ∧ Metrics.MetricCount h2 { orig := some 0 } = some (n + 1)
            ∧ Metrics.DataPointCount h2 { orig := some 0 } = some p) :=
  ⟨match AppendEmpty_counts { cells := [{}] } { orig := some 0 } {} rfl with
    | ⟨n, p, hn, hp, hr, _⟩ => ⟨n, p, hn, hp, hr⟩,
   match AppendEmpty_counts gapHeap { orig := some 0 } generateMetricsEmptyResource rfl with
    | ⟨n, p, hn, hp, _, hs, _⟩ => ⟨n, p, hn, hp, hs 0 _ rfl⟩,
   match AppendEmpty_counts gapHeap { orig := some 1 } generateMetricsEmptyInstrumentation
      rfl with
    | ⟨n, p, hn, hp, _, _, hm⟩ => ⟨n, p, hn, hp, hm 0 0 _ _ rfl rfl⟩,
   match AppendEmpty_counts { cells := [testMetricCountTree] } { orig := some 0 }
      testMetricCountTree rfl with
    | ⟨n, p, hn, hp, _, _, hm⟩ => ⟨n, p, hn, hp, hm 1 0 _ _ rfl rfl⟩⟩

/-- C23, amended: for every Metrics value `md` and every metric `m` in it whose `DataType()` is
one of the five variants and whose payload of that variant is present (as `SetDataType` leaves
it): appending one empty data point to the data-point sequence of the active payload of `m`
returns, increases `md.DataPointCount()` by exactly 1 and leaves `md.MetricCount()` unchanged,
for each of Gauge, Sum, Histogram, ExponentialHistogram and Summary. -/
theorem AppendEmptyDataPoint_counts (h : Heap) (md : Metrics) (d : otlpmetrics.MetricsData)
    (i j k : Nat) (rm : otlpmetrics.ResourceMetrics) (ilm : otlpmetrics.ScopeMetrics)
    (m : otlpmetrics.Metric)
    (hd : h.load md.orig = some d) (hrm : Slice.At d.ResourceMetrics i = some rm)
    (hilm : Slice.At rm.ScopeMetrics j = some ilm) (hm : Slice.At ilm.Metrics k = some m)
    (hty : Metric.DataType m ≠ MetricDataTypeNone) (hpres : payloadAbsent m = false) :
    ∃ n p h2, md.MetricCount h = some n ∧ md.DataPointCount h = some p
      ∧ md.AppendEmptyDataPoint h i j k = some h2
      ∧ md.DataPointCount h2 = some (p + 1)
      ∧ md.MetricCount h2 = some n := by
  obtain ⟨m1, hm1, hpts, _⟩ := AppendEmptyDataPoint_some m hty hpres
  obtain ⟨h2, hup, hl⟩ := updateMetricAt_some h md d i j k Metric.AppendEmptyDataPoint
    rm ilm m m1 hd hrm hilm hm hm1
  refine ⟨_, _, h2, MetricCount_load h md d hd, DataPointCount_load h md d hd, hup, ?_, ?_⟩
  · rw [DataPointCount_load h2 md _ hl]
    have h1 := points_set_resource d.ResourceMetrics i rm
      { rm with ScopeMetrics := (rm.ScopeMetrics.set j
          { ilm with Metrics := ilm.Metrics.set k m1 }) } hrm
    have h3 := points_set_scope rm j ilm { ilm with Metrics := ilm.Metrics.set k m1 } hilm
    have h4 := points_set_metric ilm k m m1 hm
    dsimp only
    congr 1
    omega
  · rw [MetricCount_load h2 md _ hl]
    have h1 := metrics_set_resource d.ResourceMetrics i rm
      { rm with ScopeMetrics := (rm.ScopeMetrics.set j
          { ilm with Metrics := ilm.Metrics.set k m1 }) } hrm
    have h3 := metrics_set_scope rm j ilm { ilm with Metrics := ilm.Metrics.set k m1 } hilm
    simp only [List.length_set] at h3
    dsimp only
    congr 1
    omega

/-- Witness of C23 on the final tree of `TestMetricAndDataPointCount`: one more data point in
the gauge, and one more in the summary, of the third resource. -/
theorem AppendEmptyDataPoint_counts_witness :
    (∃ n p h2, Metrics.MetricCount { cells := [testDataPointCountTree] } { orig := some 0 }
          = some n
        ∧ Metrics.DataPointCount { cells := [testDataPointCountTree] } { orig := some 0 }
          = some p
        ∧ Metrics.AppendEmptyDataPoint { cells := [testDataPointCountTree] } { orig := some 0 }
            2 0 0 = some h2
        ∧ Metrics.DataPointCount h2 { orig := some 0 } = some (p + 1)
        ∧ Metrics.MetricCount h2 { orig := some 0 } = some n)
      ∧ (∃ n p h2, Metrics.MetricCount { cells := [testDataPointCountTree] } { orig := some 0 }
          = some n
        ∧ Metrics.DataPointCount { cells := [testDataPointCountTree] } { orig := some 0 }
          = some p
        ∧ Metrics.AppendEmptyDataPoint { cells := [testDataPointCountTree] } { orig := some 0 }
            2 0 4 = some h2
        ∧ Metrics.DataPointCount h2 { orig := some 0 } = some (p + 1)
        ∧ Metrics.MetricCount h2 { orig := some 0 } = some n) :=
  ⟨AppendEmptyDataPoint_counts { cells := [testDataPointCountTree] } { orig := some 0 }
      testDataPointCountTree 2 0 0 _ _ _ rfl rfl rfl rfl (by decide) rfl,
   AppendEmptyDataPoint_counts { cells := [testDataPointCountTree] } { orig := some 0 }
      testDataPointCountTree 2 0 4 _ _ _ rfl rfl rfl rfl (by decide) rfl⟩

/-- C23 as first stated fails where the tagged payload is absent: the only metric of the tree
at address 4 of `gapHeap` is tagged Sum with a nil payload pointer; `DataType()` is Sum and the
tree counts 0 data points, yet there is no data-point sequence to append to: the append does
not return, so no state with one more data point is reached. -/
theorem AppendEmptyDataPoint_absent_payload :
    (gapHeap.load (some 4)).map (fun d => (allMetrics d).map Metric.DataType)
        = some [MetricDataTypeSum]
      ∧ (gapHeap.load (some 4)).map (fun d => (allMetrics d).map payloadAbsent) = some [true]
      ∧ MetricDataTypeSum ≠ MetricDataTypeNone
      ∧ Metrics.DataPointCount gapHeap { orig := some 4 } = some 0
      ∧ Metrics.AppendEmptyDataPoint gapHeap { orig := some 4 } 0 0 0 = none
      ∧ ¬ ∃ h2, Metrics.AppendEmptyDataPoint gapHeap { orig := some 4 } 0 0 0 = some h2
            ∧ Metrics.DataPointCount h2 { orig := some 4 } = some (0 + 1) := by
  refine ⟨rfl, rfl, by decide, rfl, rfl, ?_⟩
  rintro ⟨h2, hs, _⟩
  have hnone : Metrics.AppendEmptyDataPoint gapHeap { orig := some 4 } 0 0 0 = none := rfl
  rw [hnone] at hs
  cases hs

/-- C24: `MoveTo` onto itself loses the content.  For every Metrics value `md`, when `dest`
points to the cell of `md` (`md.MoveTo(md)`, or `dest` a copy of the handle): the call returns,
after it that cell holds no resources, both handles report `MetricCount() == 0`, and the
content is preserved nowhere: every other cell is as before and no cell was added. -/
theorem MoveTo_self (h : Heap) (md dest : Metrics) (d : otlpmetrics.MetricsData)
    (hd : h.load md.orig = some d) (hsame : dest.orig = md.orig) :
    ∃ h1, md.MoveTo h dest = some h1
      ∧ h1.load md.orig = some {}
      ∧ h1.load dest.orig = some {}
      ∧ md.MetricCount h1 = some 0
      ∧ dest.MetricCount h1 = some 0
      ∧ md.DataPointCount h1 = some 0
      ∧ (∀ p : Option Nat, p ≠ md.orig → h1.load p = h.load p)
      ∧ h1.cells.length = h.cells.length := by
  obtain ⟨h0, hs0⟩ := Heap.store_some_of_load h md.orig d d hd
  have hl0 : h0.load md.orig = some d := Heap.load_store_same h h0 _ _ hs0
  obtain ⟨h1, hs1⟩ := Heap.store_some_of_load h0 md.orig d {} hl0
  have hl1 : h1.load md.orig = some {} := Heap.load_store_same h0 h1 _ _ hs1
  refine ⟨h1, ?_, hl1, ?_, ?_, ?_, ?_, ?_, ?_⟩
  · simp [Metrics.MoveTo, hd, hsame, hs0, hs1]
  · rw [hsame]; exact hl1
  · rw [MetricCount_load h1 md {} hl1]; rfl
  · rw [MetricCount_load h1 dest {} (by rw [hsame]; exact hl1)]; rfl
  · rw [DataPointCount_load h1 md {} hl1]; rfl
  · intro p hp
    rw [Heap.load_store_other h0 h1 md.orig p {} hs1 hp,
      Heap.load_store_other h h0 md.orig p d hs0 hp]
  · rw [Heap.store_length h0 h1 _ _ hs1, Heap.store_length h h0 _ _ hs0]

/-- Witness of C24: scenario B moved onto itself out of the two-cell heap. -/
theorem MoveTo_self_witness :
    ∃ h1, Metrics.MoveTo twoCellHeap { orig := some 0 } { orig := some 0 } = some h1
      ∧ h1.load (some 0) = some {}
      ∧ Metrics.MetricCount h1 { orig := some 0 } = some 0 :=
  match MoveTo_self twoCellHeap { orig := some 0 } { orig := some 0 } scenarioB rfl rfl with
  | ⟨h1, hm, hl, _, hc, _⟩ => ⟨h1, hm, hl, hc⟩

/-! ## Additivity and order -/

theorem length_foldr_append {α β : Type} (g : α → List β) (xs : List α) :
    (xs.foldr (fun x acc => g x ++ acc) []).length = (xs.map (fun x => (g x).length)).sum := by
  induction xs with
  | nil => rfl
  | cons x xs ih => simp [ih]

theorem sum_foldr_append {α β : Type} (g : α → List β) (w : β → Nat) (xs : List α) :
    ((xs.foldr (fun x acc => g x ++ acc) []).map w).sum
      = (xs.map (fun x => ((g x).map w).sum)).sum := by
  induction xs with
  | nil => rfl
  | cons x xs ih => simp [ih]

theorem length_allMetrics (d : otlpmetrics.MetricsData) :
    (allMetrics d).length = (d.ResourceMetrics.map metricsUnder).sum := by
  unfold allMetrics
  rw [length_foldr_append]
  congr 1
  apply List.map_congr_left
  intro rm _
  exact length_foldr_append (fun ilm : otlpmetrics.ScopeMetrics => ilm.Metrics) rm.ScopeMetrics

theorem points_allMetrics (d : otlpmetrics.MetricsData) :
    ((allMetrics d).map dataPointsOf).sum = (d.ResourceMetrics.map pointsUnder).sum := by
  unfold allMetrics
  rw [sum_foldr_append]
  congr 1
  apply List.map_congr_left
  intro rm _
  exact sum_foldr_append (fun ilm : otlpmetrics.ScopeMetrics => ilm.Metrics) dataPointsOf
    rm.ScopeMetrics

/-- C29: the counting walks are additive over resources.  For every two resource sequences `A`
and `B`, a Metrics value whose resource sequence is `A` followed by `B` has `MetricCount()` equal
to that of `A` alone plus that of `B` alone, and likewise for `DataPointCount()`.  Both counts
are independent of the order of resources, scopes and metrics: two trees holding the same
metrics in any arrangement count the same, and so do a resource sequence, a scope sequence and
a metric sequence after any reordering. -/
theorem counts_additive (h : Heap) (mdA mdB mdAB : Metrics)
    (A B : List otlpmetrics.ResourceMetrics)
    (hA : h.load mdA.orig = some { ResourceMetrics := A })
    (hB : h.load mdB.orig = some { ResourceMetrics := B })
    (hAB : h.load mdAB.orig = some { ResourceMetrics := A ++ B }) :
    (∃ a b, mdA.MetricCount h = some a ∧ mdB.MetricCount h = some b
        ∧ mdAB.MetricCount h = some (a + b))
      ∧ (∃ a b, mdA.DataPointCount h = some a ∧ mdB.DataPointCount h = some b
        ∧ mdAB.DataPointCount h = some (a + b))
      ∧ (∀ (h2 : Heap) (md2 : Metrics) (d2 : otlpmetrics.MetricsData),
          h2.load md2.orig = some d2 →
          (allMetrics d2).Perm (allMetrics { ResourceMetrics := A }) →
          md2.MetricCount h2 = mdA.MetricCount h
            ∧ md2.DataPointCount h2 = mdA.DataPointCount h)
      ∧ (∀ (h2 : Heap) (md2 : Metrics) (A2 : List otlpmetrics.ResourceMetrics),
          h2.load md2.orig = some { ResourceMetrics := A2 } → A2.Perm A →
          md2.MetricCount h2 = mdA.MetricCount h
            ∧ md2.DataPointCount h2 = mdA.DataPointCount h)
      ∧ (∀ (ilms ilms2 : List otlpmetrics.ScopeMetrics) (s : Nat), ilms2.Perm ilms →
          Metrics.MetricCount.scopes ilms2 s = Metrics.MetricCount.scopes ilms s
            ∧ Metrics.DataPointCount.scopes ilms2 s = Metrics.DataPointCount.scopes ilms s)
      ∧ (∀ (ms ms2 : List otlpmetrics.Metric) (s : Nat), ms2.Perm ms →
          Slice.Len ms2 = Slice.Len ms
            ∧ Metrics.DataPointCount.metrics ms2 s = Metrics.DataPointCount.metrics ms s) := by
  refine ⟨⟨_, _, MetricCount_load h mdA _ hA, MetricCount_load h mdB _ hB, ?_⟩,
    ⟨_, _, DataPointCount_load h mdA _ hA, DataPointCount_load h mdB _ hB, ?_⟩, ?_, ?_, ?_, ?_⟩
  · rw [MetricCount_load h mdAB _ hAB]
    simp [List.map_append, List.sum_append]
  · rw [DataPointCount_load h mdAB _ hAB]
    simp [List.map_append, List.sum_append]
  · intro h2 md2 d2 hd2 hperm
    rw [MetricCount_load h2 md2 d2 hd2, MetricCount_load h mdA _ hA,
      DataPointCount_load h2 md2 d2 hd2, DataPointCount_load h mdA _ hA,
      ← length_allMetrics, ← length_allMetrics, ← points_allMetrics, ← points_allMetrics]
    exact ⟨congrArg some hperm.length_eq, congrArg some (hperm.map dataPointsOf).sum_eq⟩
  · intro h2 md2 A2 hd2 hperm
    rw [MetricCount_load h2 md2 _ hd2, MetricCount_load h mdA _ hA,
      DataPointCount_load h2 md2 _ hd2, DataPointCount_load h mdA _ hA]
    exact ⟨congrArg some (hperm.map metricsUnder).sum_eq,
      congrArg some (hperm.map pointsUnder).sum_eq⟩
  · intro ilms ilms2 s hperm
    rw [MetricCount_scopes_eq, MetricCount_scopes_eq, DataPointCount_scopes_eq,
      DataPointCount_scopes_eq]
    exact ⟨by rw [(hperm.map (fun ilm => ilm.Metrics.length)).sum_eq],
      by rw [(hperm.map pointsInScope).sum_eq]⟩
  · intro ms ms2 s hperm
    rw [DataPointCount_metrics_eq, DataPointCount_metrics_eq]
    exact ⟨hperm.length_eq, by rw [(hperm.map dataPointsOf).sum_eq]⟩

/-- Witness of C29: scenario B (1 metric, 2 data points) followed by the final tree of
`TestMetricAndDataPointCount` (6 metrics, 5 data points). -/
theorem counts_additive_witness :
    (∃ a b, Metrics.MetricCount additiveHeap { orig := some 0 } = some a
        ∧ Metrics.MetricCount additiveHeap { orig := some 1 } = some b
        ∧ Metrics.MetricCount additiveHeap { orig := some 2 } = some (a + b))
      ∧ (∃ a b, Metrics.DataPointCount additiveHeap { orig := some 0 } = some a
        ∧ Metrics.DataPointCount additiveHeap { orig := some 1 } = some b
        ∧ Metrics.DataPointCount additiveHeap { orig := some 2 } = some (a + b)) :=
  ⟨(counts_additive additiveHeap { orig := some 0 } { orig := some 1 } { orig := some 2 }
      scenarioB.ResourceMetrics testDataPointCountTree.ResourceMetrics rfl rfl rfl).1,
   (counts_additive additiveHeap { orig := some 0 } { orig := some 1 } { orig := some 2 }
      scenarioB.ResourceMetrics testDataPointCountTree.ResourceMetrics rfl rfl rfl).2.1⟩

end pdata

namespace processorhelper

theorem NewTracesProcessor_ok {τ A W F CO CT Opt ID : Type} (c : Callees τ A W F CO CT Opt ID)
    (cfgID : ID) (nextConsumer : Option (NextConsumeTraces τ W))
    (tracesFunc : Option (ProcessTracesFunc τ W)) (options : List Opt)
    (p : tracesProcessor F CT)
    (hp : NewTracesProcessor c cfgID nextConsumer tracesFunc options = Except.ok p) :
    ∃ next f, nextConsumer = some next ∧ tracesFunc = some f
      ∧ c.NewTraces (NewTracesProcessor.consume (c.spanAttributes cfgID) next f)
          (c.fromOptions options).consumerOptions = Except.ok p.Traces := by
  cases tracesFunc with
  | none => simp [NewTracesProcessor] at hp
  | some f =>
    cases nextConsumer with
    | none => simp [NewTracesProcessor] at hp
    | some next =>
      refine ⟨next, f, rfl, rfl, ?_⟩
      simp only [NewTracesProcessor] at hp
      split at hp
      · cases hp
      · rename_i tc htc
        cases hp
        exact htc

/-- C18: for the consumer built by `NewTracesProcessor` (the function it hands to
`consumer.NewTraces`): whenever `tracesFunc` returns a non-nil error, the data it returned is
ignored and `ConsumeTraces` of the next consumer is not called, and if the error is not
`ErrSkipProcessingData` (by `errors.Is`) that same error is returned; whenever `tracesFunc`
returns a nil error, `ConsumeTraces` of the next consumer is called exactly once, with the data
`tracesFunc` returned, and its result is returned. -/
theorem consume_error_handling {τ A W F CO CT Opt ID : Type}
    (c : Callees τ A W F CO CT Opt ID) (cfgID : ID)
    (nextConsumer : Option (NextConsumeTraces τ W))
    (tracesFunc : Option (ProcessTracesFunc τ W)) (options : List Opt)
    (p : tracesProcessor F CT)
    (hp : NewTracesProcessor c cfgID nextConsumer tracesFunc options = Except.ok p) :
    ∃ next f, nextConsumer = some next ∧ tracesFunc = some f
      ∧ c.NewTraces (NewTracesProcessor.consume (c.spanAttributes cfgID) next f)
          (c.fromOptions options).consumerOptions = Except.ok p.Traces
      ∧ ∀ (td : τ) (w : W),
          (∀ err : golang.Error, (f td w).1.2 = some err →
            (NewTracesProcessor.consume (c.spanAttributes cfgID) next f td w).consumed = []
            ∧ (NewTracesProcessor.consume (c.spanAttributes cfgID) next f td w).events
                = [Event.AddEvent "Start processing." (c.spanAttributes cfgID),
                   Event.AddEvent "End processing." (c.spanAttributes cfgID)]
            ∧ (NewTracesProcessor.consume (c.spanAttributes cfgID) next f td w).world
                = (f td w).2
            ∧ (golang.errors.Is err ErrSkipProcessingData = false →
                (NewTracesProcessor.consume (c.spanAttributes cfgID) next f td w).err
                  = some err))
          ∧ ((f td w).1.2 = none →
            (NewTracesProcessor.consume (c.spanAttributes cfgID) next f td w).consumed
                = [(f td w).1.1]
            ∧ (NewTracesProcessor.consume (c.spanAttributes cfgID) next f td w).err
                = (next (f td w).1.1 (f td w).2).1
            ∧ (NewTracesProcessor.consume (c.spanAttributes cfgID) next f td w).world
                = (next (f td w).1.1 (f td w).2).2) := by
  obtain ⟨next, f, hn, hf, hnew⟩ :=
    NewTracesProcessor_ok c cfgID nextConsumer tracesFunc options p hp
  refine ⟨next, f, hn, hf, hnew, ?_⟩
  intro td w
  constructor
  · intro err herr
    cases hskip : golang.errors.Is err ErrSkipProcessingData <;>
      simp [NewTracesProcessor.consume, herr, hskip, Run.consumed]
  · intro hnil
    simp [NewTracesProcessor.consume, hnil, Run.consumed]

/-- Witness of C18 with the example functions: on the data 0 the processing error comes back
and the next consumer is not called; on the data 5 the next consumer is called once with 10. -/
theorem consume_error_handling_witness :
    ((NewTracesProcessor.consume "id" sampleNext sampleTracesFunc 0 0).consumed = []
        ∧ (NewTracesProcessor.consume "id" sampleNext sampleTracesFunc 0 0).err
            = some (golang.Error.New "bad data"))
      ∧ ((NewTracesProcessor.consume "id" sampleNext sampleTracesFunc 5 0).consumed = [10]
        ∧ (NewTracesProcessor.consume "id" sampleNext sampleTracesFunc 5 0).err = none) :=
  match consume_error_handling (plainCallees Nat Nat) "id" (some sampleNext)
      (some sampleTracesFunc) []
      { StartFunc := (), ShutdownFunc := (),
        Traces := NewTracesProcessor.consume "id" sampleNext sampleTracesFunc } rfl with
  | ⟨_, _, hn, hf, _, hrun⟩ => by
    cases hn
    cases hf
    exact ⟨⟨((hrun 0 0).1 (golang.Error.New "bad data") rfl).1,
            ((hrun 0 0).1 (golang.Error.New "bad data") rfl).2.2.2 (by decide)⟩,
           ⟨((hrun 5 0).2 rfl).1, ((hrun 5 0).2 rfl).2.1⟩⟩

/-- C19: `NewTracesProcessor` fails with the error "nil tracesFunc" if and only if `tracesFunc`
is nil (also when `nextConsumer` is nil too: the check of `tracesFunc` comes first), it fails
with `ErrNilNextConsumer` when `tracesFunc` is non-nil and `nextConsumer` is nil, and in both
cases no processor is returned.  `consumer.NewTraces` is a parameter; it is taken not to return
an error "nil tracesFunc" of its own. -/
theorem NewTracesProcessor_nil_checks {τ A W F CO CT Opt ID : Type}
    (c : Callees τ A W F CO CT Opt ID) (cfgID : ID)
    (nextConsumer : Option (NextConsumeTraces τ W))
    (tracesFunc : Option (ProcessTracesFunc τ W)) (options : List Opt)
    (hNew : ∀ f o, c.NewTraces f o ≠ Except.error (golang.Error.New "nil tracesFunc")) :
    (NewTracesProcessor c cfgID nextConsumer tracesFunc options
        = Except.error (golang.Error.New "nil tracesFunc") ↔ tracesFunc = none)
      ∧ (tracesFunc = none → nextConsumer = none →
          NewTracesProcessor c cfgID nextConsumer tracesFunc options
            = Except.error (golang.Error.New "nil tracesFunc"))
      ∧ (tracesFunc ≠ none → nextConsumer = none →
          NewTracesProcessor c cfgID nextConsumer tracesFunc options
            = Except.error ErrNilNextConsumer)
      ∧ (tracesFunc = none ∨ nextConsumer = none →
          ∀ p, NewTracesProcessor c cfgID nextConsumer tracesFunc options ≠ Except.ok p) := by
  cases tracesFunc with
  | none =>
    refine ⟨⟨fun _ => rfl, fun _ => rfl⟩, fun _ _ => rfl, fun h => absurd rfl h, ?_⟩
    intro _ p hp
    simp [NewTracesProcessor] at hp
  | some f =>
    cases nextConsumer with
    | none =>
      refine ⟨⟨?_, ?_⟩, ?_, fun _ _ => rfl, ?_⟩
      · intro h
        simp [NewTracesProcessor, ErrNilNextConsumer] at h
      · intro h
        cases h
      · intro h
        cases h
      · intro _ p hp
        simp [NewTracesProcessor] at hp
    | some next =>
      refine ⟨⟨?_, ?_⟩, ?_, ?_, ?_⟩
      · intro h
        exfalso
        simp only [NewTracesProcessor] at h
        split at h
        · rename_i err herr
          cases h
          exact hNew _ _ herr
        · cases h
      · intro h
        cases h
      · intro h
        cases h
      · intro _ h
        cases h
      · intro h
        rcases h with h | h <;> cases h

/-- Witness of C19 with callees whose `consumer.NewTraces` never fails: a nil `tracesFunc`
gives "nil tracesFunc", also with a nil `nextConsumer`, and a nil `nextConsumer` alone gives
`ErrNilNextConsumer`. -/
theorem NewTracesProcessor_nil_checks_witness :
    NewTracesProcessor (plainCallees Nat Nat) "id" none none []
        = Except.error (golang.Error.New "nil tracesFunc")
      ∧ NewTracesProcessor (plainCallees Nat Nat) "id" (some sampleNext) none []
        = Except.error (golang.Error.New "nil tracesFunc")
      ∧ NewTracesProcessor (plainCallees Nat Nat) "id" none (some sampleTracesFunc) []
        = Except.error ErrNilNextConsumer :=
  ⟨(NewTracesProcessor_nil_checks (plainCallees Nat Nat) "id" none none []
      (fun _ _ h => Except.noConfusion h)).2.1 rfl rfl,
   (NewTracesProcessor_nil_checks (plainCallees Nat Nat) "id" (some sampleNext) none []
      (fun _ _ h => Except.noConfusion h)).1.mpr rfl,
   (NewTracesProcessor_nil_checks (plainCallees Nat Nat) "id" none (some sampleTracesFunc) []
      (fun _ _ h => Except.noConfusion h)).2.2.1 (fun h => Option.noConfusion h) rfl⟩

end processorhelper

namespace exporterhelper

/-- C20: `obsQueue.Offer` reports enqueue failures keyed by item count.  For every request and
signal, `Offer` returns exactly what `Offer` of the delegate returned.  If that is an error and
the signal is traces, metrics or logs, it records `req.ItemsCount()`, as read before the
delegate was called, once on the enqueue-failed counter of that signal (spans, metric points or
log records) and on no other counter.  If the delegate succeeds, or the signal is none of the
three, nothing is recorded. -/
theorem Offer_records {T Q A : Type} (or : obsQueue T Q A) (req : T) (q : Q)
    (tb : TelemetryBuilder A) :
    (or.Offer req q tb).err = (or.Queue req q).1.1
      ∧ (or.Offer req q tb).req = (or.Queue req q).1.2
      ∧ (or.Offer req q tb).queue = (or.Queue req q).2
      ∧ ((or.Queue req q).1.1 = none → (or.Offer req q tb).tb = tb)
      ∧ (∀ name : String, or.signal = Signal.Other name → (or.Offer req q tb).tb = tb)
      ∧ (∀ e : golang.Error, (or.Queue req q).1.1 = some e →
          (or.signal = Signal.SignalTraces →
            (or.Offer req q tb).tb
              = { tb with ExporterEnqueueFailedSpans :=
                    tb.ExporterEnqueueFailedSpans
                      ++ [{ val := or.ItemsCount req, options := or.metricAttr }] })
          ∧ (or.signal = Signal.SignalMetrics →
            (or.Offer req q tb).tb
              = { tb with ExporterEnqueueFailedMetricPoints :=
                    tb.ExporterEnqueueFailedMetricPoints
                      ++ [{ val := or.ItemsCount req, options := or.metricAttr }] })
          ∧ (or.signal = Signal.SignalLogs →
            (or.Offer req q tb).tb
              = { tb with ExporterEnqueueFailedLogRecords :=
                    tb.ExporterEnqueueFailedLogRecords
                      ++ [{ val := or.ItemsCount req, options := or.metricAttr }] })) := by
  refine ⟨rfl, rfl, rfl, ?_, ?_, ?_⟩
  · intro hnone
    simp [obsQueue.Offer, hnone]
  · intro name hsig
    cases herr : (or.Queue req q).1.1 <;> simp [obsQueue.Offer, herr, hsig]
  · intro e herr
    refine ⟨?_, ?_, ?_⟩ <;> intro hsig <;>
      simp [obsQueue.Offer, herr, hsig, TelemetryBuilder.RecordExporterEnqueueFailedSpans,
        TelemetryBuilder.RecordExporterEnqueueFailedMetricPoints,
        TelemetryBuilder.RecordExporterEnqueueFailedLogRecords]

/-- Witness of C20 on the example queue, full, with the metrics signal: the request of three
items is refused and emptied by the delegate, and the 3 read before the call is recorded once
on the metric-points counter only. -/
theorem Offer_records_witness :
    ((sampleQueue Signal.SignalMetrics).Offer [7, 8, 9] [[1], [2]] {}).tb
        = { ExporterEnqueueFailedMetricPoints := [{ val := 3, options := "exporter" }] }
      ∧ ((sampleQueue Signal.SignalMetrics).Offer [7, 8, 9] [[1], [2]] {}).req = [] :=
  ⟨((Offer_records (sampleQueue Signal.SignalMetrics) [7, 8, 9] [[1], [2]] {}).2.2.2.2.2
      (golang.Error.New "sending queue is full") rfl).2.1 rfl,
   (Offer_records (sampleQueue Signal.SignalMetrics) [7, 8, 9] [[1], [2]] {}).2.1⟩

end exporterhelper

namespace processorhelper

theorem errors_Is_skip_wrap (text : String) (err : golang.Error)
    (h : golang.errors.Is err ErrSkipProcessingData = true) :
    golang.errors.Is (golang.Error.Wrap text err) ErrSkipProcessingData = true := by
  rw [golang.errors.Is]
  split
  · rfl
  · exact h

/-- C28: for the consumer built by `NewTracesProcessor` (the function it hands to
`consumer.NewTraces`): when `tracesFunc` returns an error for which
`errors.Is(err, ErrSkipProcessingData)` holds, which is so for the sentinel itself and for any
error wrapping it, the consumer returns nil, the next consumer is not called, and the data is
dropped: the run consists of the two span events and leaves the state `tracesFunc` left. -/
theorem consume_skip {τ A W F CO CT Opt ID : Type}
    (c : Callees τ A W F CO CT Opt ID) (cfgID : ID)
    (nextConsumer : Option (NextConsumeTraces τ W))
    (tracesFunc : Option (ProcessTracesFunc τ W)) (options : List Opt)
    (p : tracesProcessor F CT)
    (hp : NewTracesProcessor c cfgID nextConsumer tracesFunc options = Except.ok p) :
    ∃ next f, nextConsumer = some next ∧ tracesFunc = some f
      ∧ c.NewTraces (NewTracesProcessor.consume (c.spanAttributes cfgID) next f)
          (c.fromOptions options).consumerOptions = Except.ok p.Traces
      ∧ (∀ (td : τ) (w : W) (err : golang.Error), (f td w).1.2 = some err →
          golang.errors.Is err ErrSkipProcessingData = true →
          (NewTracesProcessor.consume (c.spanAttributes cfgID) next f td w).err = none
          ∧ (NewTracesProcessor.consume (c.spanAttributes cfgID) next f td w).consumed = []
          ∧ (NewTracesProcessor.consume (c.spanAttributes cfgID) next f td w).events
              = [Event.AddEvent "Start processing." (c.spanAttributes cfgID),
                 Event.AddEvent "End processing." (c.spanAttributes cfgID)]
          ∧ (NewTracesProcessor.consume (c.spanAttributes cfgID) next f td w).world
              = (f td w).2)
      ∧ golang.errors.Is ErrSkipProcessingData ErrSkipProcessingData = true
      ∧ (∀ (text : String) (err : golang.Error),
          golang.errors.Is err ErrSkipProcessingData = true →
          golang.errors.Is (golang.Error.Wrap text err) ErrSkipProcessingData = true) := by
  obtain ⟨next, f, hn, hf, hnew⟩ :=
    NewTracesProcessor_ok c cfgID nextConsumer tracesFunc options p hp
  refine ⟨next, f, hn, hf, hnew, ?_, by decide, errors_Is_skip_wrap⟩
  intro td w err herr hskip
  simp [NewTracesProcessor.consume, herr, hskip, Run.consumed]

/-- Witness of C28 with the example functions: on the data 1 the processing function fails with
an error that wraps the skip sentinel; the consumer returns nil and calls nobody. -/
theorem consume_skip_witness :
    (NewTracesProcessor.consume "id" sampleNext sampleTracesFunc 1 0).err = none
      ∧ (NewTracesProcessor.consume "id" sampleNext sampleTracesFunc 1 0).consumed = [] :=
  match consume_skip (plainCallees Nat Nat) "id" (some sampleNext)
      (some sampleTracesFunc) []
      { StartFunc := (), ShutdownFunc := (),
        Traces := NewTracesProcessor.consume "id" sampleNext sampleTracesFunc } rfl with
  | ⟨_, _, hn, hf, _, hrun, _⟩ => by
    cases hn
    cases hf
    exact ⟨(hrun 1 0 (golang.Error.Wrap "skipped" ErrSkipProcessingData) rfl (by decide)).1,
           (hrun 1 0 (golang.Error.Wrap "skipped" ErrSkipProcessingData) rfl (by decide)).2.1⟩

end processorhelper

namespace configtls

theorem errors_Is_refl (err : golang.Error) : golang.errors.Is err err = true := by
  cases err <;> simp [golang.errors.Is]

theorem errors_Is_wrap (text : String) (err : golang.Error) :
    golang.errors.Is (golang.Error.Wrap text err) err = true := by
  rw [golang.errors.Is]
  split
  · rfl
  · exact errors_Is_refl err

/-- C25: `getClientConfig` never returns an error and is atomic on reload failure.  For every
reloader state with reload enabled the loader is called exactly once; if it fails the stored
cert pool, and the whole reloader, is left unchanged and `ClientCAs` of the returned config is
the previously stored pool; if it succeeds the stored pool is replaced by the newly loaded one
and that one is returned as `ClientCAs`.  The field `lastReloadError` is never written: not by
`getClientConfig`, not by `enableReloadClientCAFile`, and `newClientCAsReloader` leaves it at
its zero value. -/
theorem getClientConfig_reload {P GC GCC L : Type} (r : clientCAsFileReloader P L)
    (original : tls.Config P GC GCC) (l : L) :
    (r.getClientConfig original l).err = none
      ∧ (r.getClientConfig original l).reloader.lastReloadError = r.lastReloadError
      ∧ r.enableReloadClientCAFile.lastReloadError = r.lastReloadError
      ∧ (∀ (file : String) (rl : clientCAsFileReloader P L),
          (newClientCAsReloader file r.loader l).reloader = some rl →
          rl.lastReloadError = none)
      ∧ (r.reload = true →
          (r.getClientConfig original l).loaderCalls = 1
          ∧ (r.getClientConfig original l).loaderState = (r.loader.loadClientCAFile l).2
          ∧ (∀ e : golang.Error, (r.loader.loadClientCAFile l).1.2 = some e →
              (r.getClientConfig original l).reloader = r
              ∧ (r.getClientConfig original l).reloader.certPool = r.certPool
              ∧ (r.getClientConfig original l).config.ClientCAs = r.certPool)
          ∧ ((r.loader.loadClientCAFile l).1.2 = none →
              (r.getClientConfig original l).reloader
                  = { r with certPool := (r.loader.loadClientCAFile l).1.1 }
              ∧ (r.getClientConfig original l).reloader.certPool
                  = (r.loader.loadClientCAFile l).1.1
              ∧ (r.getClientConfig original l).config.ClientCAs
                  = (r.loader.loadClientCAFile l).1.1)) := by
  refine ⟨rfl, ?_, rfl, ?_, ?_⟩
  · unfold clientCAsFileReloader.getClientConfig
    cases hr : r.reload
    · simp
    · cases he : (r.loader.loadClientCAFile l).1.2 <;> simp [he]
  · intro file rl hrl
    unfold newClientCAsReloader at hrl
    cases he : (r.loader.loadClientCAFile l).1.2
    · simp only [he] at hrl
      cases hrl
      rfl
    · simp [he] at hrl
  · intro hr
    refine ⟨?_, ?_, ?_, ?_⟩
    · unfold clientCAsFileReloader.getClientConfig
      cases he : (r.loader.loadClientCAFile l).1.2 <;> simp [hr, he]
    · unfold clientCAsFileReloader.getClientConfig
      cases he : (r.loader.loadClientCAFile l).1.2 <;> simp [hr, he]
    · intro e he
      unfold clientCAsFileReloader.getClientConfig
      simp [hr, he]
    · intro he
      unfold clientCAsFileReloader.getClientConfig
      simp [hr, he]

/-- Witness of C25 on the example reloader, which holds the pool "old": with the file gone the
pool stays "old"; with the file "new" it becomes "new". -/
theorem getClientConfig_reload_witness :
    ((sampleReloader.getClientConfig sampleConfig "").reloader.certPool = some "old"
        ∧ (sampleReloader.getClientConfig sampleConfig "").config.ClientCAs = some "old")
      ∧ ((sampleReloader.getClientConfig sampleConfig "new").reloader.certPool = some "new"
        ∧ (sampleReloader.getClientConfig sampleConfig "new").config.ClientCAs = some "new")
      ∧ (sampleReloader.getClientConfig sampleConfig "new").loaderCalls = 1 :=
  ⟨⟨(((getClientConfig_reload sampleReloader sampleConfig "").2.2.2.2 rfl).2.2.1
        (golang.Error.New "no such file") rfl).2.1,
    (((getClientConfig_reload sampleReloader sampleConfig "").2.2.2.2 rfl).2.2.1
        (golang.Error.New "no such file") rfl).2.2⟩,
   ⟨(((getClientConfig_reload sampleReloader sampleConfig "new").2.2.2.2 rfl).2.2.2 rfl).2.1,
    (((getClientConfig_reload sampleReloader sampleConfig "new").2.2.2.2 rfl).2.2.2 rfl).2.2⟩,
   ((getClientConfig_reload sampleReloader sampleConfig "new").2.2.2.2 rfl).1⟩

/-- C26: for every reloader state and every original `tls.Config`, the config returned by
`getClientConfig` has `RootCAs`, `GetCertificate`, `GetClientCertificate`, `MinVersion`,
`MaxVersion` and `NextProtos` equal to those of `original`, `ClientCAs` equal to the cert pool
the reloader holds after the call, and `ClientAuth` equal to `RequireAndVerifyClientCert`
whatever `original.ClientAuth` was; `original` is only read; and when reload has not been
enabled the loader is not called and the reloader state is unchanged. -/
theorem getClientConfig_fields {P GC GCC L : Type} (r : clientCAsFileReloader P L)
    (original : tls.Config P GC GCC) (l : L) :
    (r.getClientConfig original l).config.RootCAs = original.RootCAs
      ∧ (r.getClientConfig original l).config.GetCertificate = original.GetCertificate
      ∧ (r.getClientConfig original l).config.GetClientCertificate
          = original.GetClientCertificate
      ∧ (r.getClientConfig original l).config.MinVersion = original.MinVersion
      ∧ (r.getClientConfig original l).config.MaxVersion = original.MaxVersion
      ∧ (r.getClientConfig original l).config.NextProtos = original.NextProtos
      ∧ (r.getClientConfig original l).config.ClientCAs
          = (r.getClientConfig original l).reloader.certPool
      ∧ (r.getClientConfig original l).config.ClientAuth
          = tls.ClientAuthType.RequireAndVerifyClientCert
      ∧ (r.reload = false →
          (r.getClientConfig original l).loaderCalls = 0
          ∧ (r.getClientConfig original l).loaderState = l
          ∧ (r.getClientConfig original l).reloader = r
          ∧ (r.getClientConfig original l).config.ClientCAs = r.certPool) := by
  refine ⟨rfl, rfl, rfl, rfl, rfl, rfl, rfl, rfl, ?_⟩
  intro hr
  unfold clientCAsFileReloader.getClientConfig
  simp [hr]

/-- Witness of C26 on the example reloader with reload switched off and the example config,
whose `ClientAuth` is `NoClientCert` and whose `ClientCAs` is "stale". -/
theorem getClientConfig_fields_witness :
    (({ sampleReloader with reload := false }).getClientConfig sampleConfig "new").config
        = { sampleConfig with ClientCAs := some "old",
                              ClientAuth := tls.ClientAuthType.RequireAndVerifyClientCert,
                              ServerName := "", InsecureSkipVerify := false }
      ∧ (({ sampleReloader with reload := false }).getClientConfig sampleConfig "new").loaderCalls
        = 0 :=
  ⟨rfl, ((getClientConfig_fields { sampleReloader with reload := false } sampleConfig
      "new").2.2.2.2.2.2.2.2 rfl).1⟩

/-- C27: `newClientCAsReloader` returns an error, and a nil reloader, if and only if the first
`loadClientCAFile` call of the loader fails, and the returned error wraps the error of the
loader; on success the reloader stores the given file path, the loaded cert pool and the
loader, with reload disabled; in both cases the loader has been called exactly once. -/
theorem newClientCAsReloader_result {P L : Type} (clientCAsFile : String)
    (loader : clientCAsFileLoader P L) (l : L) :
    ((newClientCAsReloader clientCAsFile loader l).err ≠ none
        ↔ (loader.loadClientCAFile l).1.2 ≠ none)
      ∧ ((newClientCAsReloader clientCAsFile loader l).reloader = none
        ↔ (loader.loadClientCAFile l).1.2 ≠ none)
      ∧ (∀ e : golang.Error, (loader.loadClientCAFile l).1.2 = some e →
          (newClientCAsReloader clientCAsFile loader l).err
              = some (golang.Error.Wrap "failed to load client CA CertPool: " e)
          ∧ golang.errors.Is (golang.Error.Wrap "failed to load client CA CertPool: " e) e
              = true
          ∧ (newClientCAsReloader clientCAsFile loader l).reloader = none)
      ∧ ((loader.loadClientCAFile l).1.2 = none →
          (newClientCAsReloader clientCAsFile loader l).err = none
          ∧ (newClientCAsReloader clientCAsFile loader l).reloader
              = some { clientCAsFile := clientCAsFile,
                       certPool := (loader.loadClientCAFile l).1.1,
                       lastReloadError := none, loader := loader, reload := false })
      ∧ (newClientCAsReloader clientCAsFile loader l).loaderCalls = 1
      ∧ (newClientCAsReloader clientCAsFile loader l).loaderState
          = (loader.loadClientCAFile l).2 := by
  cases he : (loader.loadClientCAFile l).1.2 with
  | none => simp [newClientCAsReloader, he]
  | some e => simp [newClientCAsReloader, he, errors_Is_wrap]

/-- Witness of C27 with the loader of the tests: without a stored error the reloader is built
around the nil pool after one call; with a stored error the error comes back wrapped. -/
theorem newClientCAsReloader_result_witness :
    (newClientCAsReloader "/tmp/clientCAs.crt" testLoader.loadClientCAFile {}).reloader.isSome
        = true
      ∧ (newClientCAsReloader "/tmp/clientCAs.crt" testLoader.loadClientCAFile {}).loaderState
        = { counter := 1 }
      ∧ (newClientCAsReloader "/tmp/clientCAs.crt" testLoader.loadClientCAFile
          { err := some (golang.Error.New "test") }).err
        = some (golang.Error.Wrap "failed to load client CA CertPool: "
            (golang.Error.New "test")) :=
  ⟨by rw [((newClientCAsReloader_result "/tmp/clientCAs.crt" testLoader.loadClientCAFile
        {}).2.2.2.1 rfl).2]; rfl,
   (newClientCAsReloader_result "/tmp/clientCAs.crt" testLoader.loadClientCAFile {}).2.2.2.2.2,
   ((newClientCAsReloader_result "/tmp/clientCAs.crt" testLoader.loadClientCAFile
      { err := some (golang.Error.New "test") }).2.2.1 (golang.Error.New "test") rfl).1⟩

end configtls
